import Mathlib

/-!
Shallow embedding of the core of the `wagmi` WebAssembly interpreter
(files `src/error.rs`, `src/wasm_memory.rs`, `src/instance.rs`,
`src/module.rs`), together with theorems settling the frozen claims
about it.

Conventions used throughout:

* Machine integers are modelled as `Nat` (unsigned views) and `Int`
  (signed views) with explicit reduction `% 2^32` / `% 2^64` wherever
  the Rust code converts or could wrap.
* The 64-bit value cell `WasmValue(u64)` is a one-field structure over
  `Nat`; every constructor reduces its argument so that the stored
  payload is a valid `u64`.
* Rust `Vec`s that are used as stacks (value stack, control stack,
  function-base stacks) are modelled as Lean lists with the TOP of the
  stack at the HEAD of the list; `Vec::push` is `List.cons`,
  `Vec::truncate k` keeps the bottom `k` elements, i.e. drops
  `len - k` elements from the head.
* `HashMap`s of the instance registry are modelled as association
  lists with `HashMap::insert` replacing an existing binding in place.
* Fallible Rust functions returning `Result<T, Error>` become
  `Except Error T`; Rust panics (out-of-bounds indexing, usize
  underflow) are modelled by an outer `Option` where relevant.
-/

namespace Wagmi

/-- Error kind of the runtime, from `src/error.rs`: five kinds, each
carrying a stable short message. -/
inductive Error where
  | malformed (msg : String)
  | validation (msg : String)
  | trap (msg : String)
  | link (msg : String)
  | uninstantiable (msg : String)
deriving DecidableEq, Repr

/-- Message constant from `src/error.rs`. -/
def DIVIDE_BY_ZERO : String := "integer divide by zero"

/-- Message constant from `src/error.rs`. -/
def FUNC_NO_IMPL : String := "function has no implementation"

/-- Message constant from `src/error.rs`. -/
def INDIRECT_CALL_MISMATCH : String := "indirect call type mismatch"

/-- Message constant from `src/error.rs`. -/
def INTEGER_OVERFLOW : String := "integer overflow"

/-- Message constant from `src/error.rs`. -/
def INVALID_NUM_ARG : String := "invalid number of arguments"

/-- Message constant from `src/error.rs`. -/
def STACK_EXHAUSTED : String := "call stack exhausted"

/-- Message constant from `src/error.rs`. -/
def STACK_UNDERFLOW : String := "stack underflow"

/-- Message constant from `src/error.rs`. -/
def UNDEF_ELEM : String := "undefined element"

/-- Message constant from `src/error.rs`. -/
def UNINITIALIZED_ELEM : String := "uninitialized element"

/-- Message constant from `src/error.rs`. -/
def INVALID_SECTION_ID : String := "invalid section id"

/-- Message constant from `src/error.rs`. -/
def JUNK_AFTER_LAST : String := "junk after last section"

/-- Message constant from `src/error.rs`. -/
def SECTION_SIZE_MISMATCH : String := "section size mismatch"

/-- Message constant from `src/error.rs`. -/
def UNEXPECTED_END : String := "unexpected end of section or function"

/-- Message constant from `src/error.rs`. -/
def NO_MAGIC_HEADER : String := "magic header not detected"

/-- Message constant from `src/error.rs`. -/
def UNKNOWN_BINARY_VERSION : String := "unknown binary version"

/-- Message constant from `src/error.rs`. -/
def INT_TOO_LARGE : String := "integer too large"

/-- Message constant from `src/error.rs`. -/
def INT_TOO_LONG : String := "integer representation too long"

/-- Message constant from `src/error.rs`. -/
def INVALID_UTF8 : String := "invalid UTF-8 encoding"

/-- Message constant from `src/error.rs`. -/
def INVALID_VALUE_TYPE : String := "invalid value type"

/-- Message constant from `src/error.rs`. -/
def INVALID_RESULT_ARITY : String := "invalid result arity"

/-- Message constant from `src/error.rs`. -/
def INVALID_RESULT_TYPE : String := "invalid result type"

/-- Message constant from `src/error.rs`. -/
def MALFORMED_IMPORT_KIND : String := "malformed import kind"

/-- Message constant from `src/error.rs`. -/
def MALFORMED_REF_TYPE : String := "malformed reference type"

/-- Message constant from `src/error.rs`. -/
def INVALID_MUTABILITY : String := "invalid mutability"

/-- Message constant from `src/error.rs`. -/
def INVALID_GLOBAL_TYPE : String := "invalid global type"

/-- Message constant from `src/error.rs`. -/
def MULTIPLE_TABLES : String := "multiple tables"

/-- Message constant from `src/error.rs`. -/
def MULTIPLE_MEMORIES : String := "multiple memories"

/-- Message constant from `src/error.rs`. -/
def UNKNOWN_TYPE : String := "unknown type"

/-- Message constant from `src/error.rs`. -/
def UNKNOWN_FUNC : String := "unknown function"

/-- Message constant from `src/error.rs`. -/
def UNKNOWN_GLOBAL : String := "unknown global"

/-- Message constant from `src/error.rs`. -/
def UNKNOWN_TABLE : String := "unknown table"

/-- Message constant from `src/error.rs`. -/
def UNKNOWN_MEMORY : String := "unknown memory"

/-- Message constant from `src/error.rs`. -/
def INVALID_TABLE_ELEM_TYPE : String := "invalid table element type"

/-- Message constant from `src/error.rs`. -/
def INVALID_EXPORT_DESC : String := "invalid export description"

/-- Message constant from `src/error.rs`. -/
def DUP_EXPORT_NAME : String := "duplicate export name"

/-- Message constant from `src/error.rs`. -/
def MIN_GREATER_THAN_MAX : String := "size minimum must not be greater than maximum"

/-- Message constant from `src/error.rs`. -/
def MEMORY_SIZE_LIMIT : String := "memory size must be at most 65536 pages (4GiB)"

/-- Message constant from `src/error.rs`. -/
def FUNC_CODE_INCONSISTENT : String := "function and code section have inconsistent lengths"

/-- Message constant from `src/error.rs`. -/
def TOO_MANY_LOCALS : String := "too many locals"

/-- Message constant from `src/error.rs`. -/
def INVALID_LOCAL_TYPE : String := "invalid local type"

/-- Message constant from `src/error.rs`. -/
def INVALID_DATA_SEG_FLAG : String := "invalid data segment flag"

/-- Message constant from `src/error.rs`. -/
def CONST_EXP_REQUIRED : String := "constant expression required"

/-- Message constant from `src/error.rs`. -/
def TYPE_MISMATCH : String := "type mismatch"

/-- Message constant from `src/error.rs`. -/
def ILLEGAL_OP : String := "illegal opcode"

/-- 2^32, the modulus of the `u32` type. -/
def two32 : Nat := 4294967296

/-- 2^64, the modulus of the `u64` type. -/
def two64 : Nat := 18446744073709551616

/-- Largest `u32` value, `u32::MAX`. -/
def U32_MAX : Nat := 4294967295

/-- Signed reinterpretation of the low `bits` bits of a natural
number, as done by Rust `as i32` / `as i64` casts. -/
def toSigned (bits : Nat) (n : Nat) : Int :=
  let m := n % 2 ^ bits
  if m < 2 ^ (bits - 1) then (m : Int) else (m : Int) - 2 ^ bits

/-- Value cell of the interpreter, from `src/instance.rs`:
`struct WasmValue(pub u64)`, a raw 64-bit payload. -/
structure WasmValue where
  val : Nat
deriving DecidableEq, Repr

/-- Conversion `WasmValue::from_i32(v) = Self(v as u32 as u64)`:
the i32 payload is zero-extended through a u32 reinterpretation. -/
def WasmValue.from_i32 (v : Int) : WasmValue := ⟨(v % (two32 : Int)).toNat⟩

/-- Conversion `WasmValue::as_i32(self) = self.0 as u32 as i32`. -/
def WasmValue.as_i32 (w : WasmValue) : Int := toSigned 32 (w.val % two32)

/-- Conversion `WasmValue::from_u32(v) = Self(v as u64)`; the argument
is reduced mod 2^32 to express the `u32` input domain. -/
def WasmValue.from_u32 (v : Nat) : WasmValue := ⟨v % two32⟩

/-- Conversion `WasmValue::as_u32(self) = self.0 as u32`. -/
def WasmValue.as_u32 (w : WasmValue) : Nat := w.val % two32

/-- Conversion `WasmValue::from_i64(v) = Self(v as u64)`. -/
def WasmValue.from_i64 (v : Int) : WasmValue := ⟨(v % (two64 : Int)).toNat⟩

/-- Conversion `WasmValue::as_i64(self) = self.0 as i64`. -/
def WasmValue.as_i64 (w : WasmValue) : Int := toSigned 64 (w.val % two64)

/-- Conversion `WasmValue::from_u64(v) = Self(v)`; the argument is
reduced mod 2^64 to express the `u64` input domain. -/
def WasmValue.from_u64 (v : Nat) : WasmValue := ⟨v % two64⟩

/-- Conversion `WasmValue::as_u64(self) = self.0`. -/
def WasmValue.as_u64 (w : WasmValue) : Nat := w.val

/-- Conversion `WasmValue::from_f32_bits(bits) = Self(bits as u64)`;
float payloads are stored as their raw bit patterns. -/
def WasmValue.from_f32_bits (bits : Nat) : WasmValue := ⟨bits % two32⟩

/-- Conversion `WasmValue::as_f32_bits(self) = self.0 as u32`. -/
def WasmValue.as_f32_bits (w : WasmValue) : Nat := w.val % two32

/-- Conversion `WasmValue::from_f64_bits(bits) = Self(bits)`; the
argument is reduced mod 2^64 to express the `u64` input domain. -/
def WasmValue.from_f64_bits (bits : Nat) : WasmValue := ⟨bits % two64⟩

/-- Conversion `WasmValue::as_f64_bits(self) = self.0`. -/
def WasmValue.as_f64_bits (w : WasmValue) : Nat := w.val

/-- Value of `i32::MIN`. -/
def I32_MIN : Int := -2147483648

/-- Value of `i64::MIN`. -/
def I64_MIN : Int := -9223372036854775808

/-- Interpreter case `0x6d` (`i32.div_s`), from the `div_s!` macro in
`src/instance.rs`: trap on a zero divisor, trap on `i32::MIN / -1`,
otherwise push the truncated quotient.  The first argument is the
deeper stack operand `a`, the second the top operand `b`. -/
def i32_div_s (a b : WasmValue) : Except Error WasmValue :=
  let bv := b.as_i32
  let av := a.as_i32
  if bv = 0 then .error (.trap DIVIDE_BY_ZERO)
  else if av = I32_MIN ∧ bv = -1 then .error (.trap INTEGER_OVERFLOW)
  else .ok (WasmValue.from_i32 (Int.tdiv av bv))

/-- Interpreter case `0x6e` (`i32.div_u`), from the `div_u!` macro in
`src/instance.rs`: trap on a zero divisor, otherwise push the
unsigned quotient. -/
def i32_div_u (a b : WasmValue) : Except Error WasmValue :=
  let bv := b.as_u32
  let av := a.as_u32
  if bv = 0 then .error (.trap DIVIDE_BY_ZERO)
  else .ok (WasmValue.from_u32 (av / bv))

/-- Interpreter case `0x6f` (`i32.rem_s`), from the `rem_s!` macro in
`src/instance.rs`: trap on a zero divisor; `i32::MIN rem -1` pushes 0
without trapping; otherwise push the truncated remainder. -/
def i32_rem_s (a b : WasmValue) : Except Error WasmValue :=
  let bv := b.as_i32
  let av := a.as_i32
  if bv = 0 then .error (.trap DIVIDE_BY_ZERO)
  else if av = I32_MIN ∧ bv = -1 then .ok (WasmValue.from_i32 0)
  else .ok (WasmValue.from_i32 (Int.tmod av bv))

/-- Interpreter case `0x70` (`i32.rem_u`), from the `rem_u!` macro in
`src/instance.rs`. -/
def i32_rem_u (a b : WasmValue) : Except Error WasmValue :=
  let bv := b.as_u32
  let av := a.as_u32
  if bv = 0 then .error (.trap DIVIDE_BY_ZERO)
  else .ok (WasmValue.from_u32 (av % bv))

/-- Interpreter case `0x7f` (`i64.div_s`), from the `div_s!` macro in
`src/instance.rs`. -/
def i64_div_s (a b : WasmValue) : Except Error WasmValue :=
  let bv := b.as_i64
  let av := a.as_i64
  if bv = 0 then .error (.trap DIVIDE_BY_ZERO)
  else if av = I64_MIN ∧ bv = -1 then .error (.trap INTEGER_OVERFLOW)
  else .ok (WasmValue.from_i64 (Int.tdiv av bv))

/-- Interpreter case `0x80` (`i64.div_u`), from the `div_u!` macro in
`src/instance.rs`. -/
def i64_div_u (a b : WasmValue) : Except Error WasmValue :=
  let bv := b.as_u64
  let av := a.as_u64
  if bv = 0 then .error (.trap DIVIDE_BY_ZERO)
  else .ok (WasmValue.from_u64 (av / bv))

/-- Interpreter case `0x81` (`i64.rem_s`), from the `rem_s!` macro in
`src/instance.rs`. -/
def i64_rem_s (a b : WasmValue) : Except Error WasmValue :=
  let bv := b.as_i64
  let av := a.as_i64
  if bv = 0 then .error (.trap DIVIDE_BY_ZERO)
  else if av = I64_MIN ∧ bv = -1 then .ok (WasmValue.from_i64 0)
  else .ok (WasmValue.from_i64 (Int.tmod av bv))

/-- Interpreter case `0x82` (`i64.rem_u`), from the `rem_u!` macro in
`src/instance.rs`. -/
def i64_rem_u (a b : WasmValue) : Except Error WasmValue :=
  let bv := b.as_u64
  let av := a.as_u64
  if bv = 0 then .error (.trap DIVIDE_BY_ZERO)
  else .ok (WasmValue.from_u64 (av % bv))

/-- Page size of linear memory, `WasmMemory::PAGE_SIZE`. -/
def PAGE_SIZE : Nat := 65536

/-- Page-count cap of linear memory, `WasmMemory::MAX_PAGES`. -/
def MAX_PAGES : Nat := 65536

/-- Linear memory, from `src/wasm_memory.rs`: a flat byte buffer of
`current` pages with a `maximum` cap.  Bytes are `Nat`s below 256. -/
structure WasmMemory where
  data : List Nat
  current : Nat
  maximum : Nat
deriving DecidableEq, Repr

/-- Semantics of `Vec::resize(n, x)`: truncate to `n` elements, or
append copies of `x` until the length is `n`. -/
def listResize (l : List α) (n : Nat) (x : α) : List α :=
  if n ≤ l.length then l.take n else l ++ List.replicate (n - l.length) x

/-- Constructor `WasmMemory::new`: caps the maximum at `MAX_PAGES` and
allocates `initial` zeroed pages. -/
def WasmMemory.new (initial maximum : Nat) : WasmMemory :=
  { data := List.replicate (initial * PAGE_SIZE) 0
    current := initial
    maximum := min maximum MAX_PAGES }

/-- Method `WasmMemory::grow(delta)`, from `src/wasm_memory.rs`:
returns the previous page count paired with the new memory state.
`delta == 0` returns the current count unchanged; a delta exceeding
`maximum.saturating_sub(current)` returns `u32::MAX` without any
mutation; otherwise the buffer is resized with zero fill.  Note that
Lean `Nat` subtraction is truncated, exactly matching
`saturating_sub`. -/
def WasmMemory.grow (m : WasmMemory) (delta : Nat) : Nat × WasmMemory :=
  if delta = 0 then (m.current, m)
  else if delta > m.maximum - m.current then (U32_MAX, m)
  else
    let newCurrent := m.current + delta
    (m.current,
      { data := listResize m.data (newCurrent * PAGE_SIZE) 0
        current := newCurrent
        maximum := m.maximum })

/-- Handle construction `FuncRef::new(owner_id, func_idx)`, from
`src/instance.rs`: zero (the null funcref) when `owner_id == 0` or
`func_idx == u32::MAX`, otherwise `(owner_id << 32) | (func_idx + 1)`.
The registry side effect (`inc_ref`) is not part of the handle value
and is modelled separately on `InstanceManager`.  Arguments are
reduced mod 2^32 to express their `u32` domains. -/
def FuncRef.new (owner_id func_idx : Nat) : Nat :=
  if owner_id % two32 = 0 ∨ func_idx % two32 = U32_MAX then 0
  else ((owner_id % two32) <<< 32) ||| (func_idx % two32 + 1)

/-- Decoding step of `call_indirect` in `Instance::interpret`
(`src/instance.rs`): the owner instance id is the high 32 bits of the
handle. -/
def handleOwner (handle : Nat) : Nat := (handle >>> 32) % two32

/-- Decoding step of `call_indirect`: the low half of the handle,
`(handle & 0xFFFF_FFFF) as u32`; the function index is this value
minus one. -/
def handleLow (handle : Nat) : Nat := handle &&& 0xFFFFFFFF

-- ----------------------------------------------------------------
-- Instance registry (`InstanceManager`, `src/instance.rs`)
-- ----------------------------------------------------------------

/-- Lookup in an association-list model of `HashMap`: first binding
for the key, if any. -/
def alistFind [DecidableEq κ] (l : List (κ × β)) (k : κ) : Option β :=
  match l with
  | [] => none
  | (k', v) :: t => if k' = k then some v else alistFind t k

/-- Insertion in an association-list model of `HashMap`: replaces the
first binding for the key in place, or appends a new binding. -/
def alistInsert [DecidableEq κ] (l : List (κ × β)) (k : κ) (v : β) : List (κ × β) :=
  match l with
  | [] => [(k, v)]
  | (k', v') :: t => if k' = k then (k, v) :: t else (k', v') :: alistInsert t k v

/-- Removal in an association-list model of `HashMap`: removes the
first binding for the key. -/
def alistErase [DecidableEq κ] (l : List (κ × β)) (k : κ) : List (κ × β) :=
  match l with
  | [] => []
  | (k', v') :: t => if k' = k then t else (k', v') :: alistErase t k

/-- Runtime function of another instance as seen from a cross-instance
`call_indirect` dispatch: its packed runtime signature, and the
observable outcome of running it to completion on a parameter stack
(the behaviour of `owner.call_function_idx` on a fresh sub-stack). -/
structure FnModel where
  sig : Nat
  call : List WasmValue → Except Error (List WasmValue)

/-- Instance payload stored in the registry: its numeric id and its
resolved function vector. -/
structure InstModel where
  id : Nat
  functions : List FnModel

/-- Registry state, from `struct InstanceManager` in
`src/instance.rs`: weak handles keyed by id (a dead weak handle is a
`none` payload), outstanding funcref refcounts, the id allocator, and
the strong zombie holdover map. -/
structure InstanceManager where
  registry : List (Nat × Option InstModel)
  refcounts : List (Nat × Nat)
  next_id : Nat
  zombie_instances : List (Nat × InstModel)

/-- Method `InstanceManager::get_instance`: the zombie holdover is
consulted first, then the weak handle in the registry is upgraded. -/
def InstanceManager.get_instance (m : InstanceManager) (id : Nat) : Option InstModel :=
  match alistFind m.zombie_instances id with
  | some zombie => some zombie
  | none =>
    match alistFind m.registry id with
    | some w => w
    | none => none

/-- Method `InstanceManager::inc_ref`: `*entry(owner_id).or_insert(0) += 1`. -/
def InstanceManager.inc_ref (m : InstanceManager) (owner_id : Nat) : InstanceManager :=
  { m with refcounts :=
      alistInsert m.refcounts owner_id ((alistFind m.refcounts owner_id).getD 0 + 1) }

/-- Method `InstanceManager.dec_ref`, from `src/instance.rs`: only an
existing, strictly positive refcount is decremented; on the
transition to zero the zombie holdover for that id is removed. -/
def InstanceManager.dec_ref (m : InstanceManager) (owner_id : Nat) : InstanceManager :=
  match alistFind m.refcounts owner_id with
  | none => m
  | some count =>
    if count > 0 then
      let count' := count - 1
      { m with
        refcounts := alistInsert m.refcounts owner_id count'
        zombie_instances :=
          if count' = 0 then alistErase m.zombie_instances owner_id
          else m.zombie_instances }
    else m

/-- Method `InstanceManager::has_refs`: the refcount, defaulted to 0,
is strictly positive. -/
def InstanceManager.has_refs (m : InstanceManager) (owner_id : Nat) : Bool :=
  (alistFind m.refcounts owner_id).getD 0 > 0

/-- Method `InstanceManager::add_zombie`: inserts the instance into
the zombie holdover map only when its refcount is positive. -/
def InstanceManager.add_zombie (m : InstanceManager) (inst : InstModel) : InstanceManager :=
  if m.has_refs inst.id then
    { m with zombie_instances := alistInsert m.zombie_instances inst.id inst }
  else m

/-- Start-function outcome handling in `Instance::instantiate`
(`src/instance.rs`, the `match inst_rc.call_function_idx(...)` block):
the third argument is the result of invoking the start function.  A
trap promotes the instance to a zombie holdover (when refcounted) and
is reclassified as `Uninstantiable` with the same message; any other
error propagates unchanged; success leaves the registry untouched. -/
def startCall (mgr : InstanceManager) (inst : InstModel)
    (callResult : Except Error Unit) : InstanceManager × Except Error Unit :=
  match callResult with
  | .ok () => (mgr, .ok ())
  | .error (.trap msg) => (mgr.add_zombie inst, .error (.uninstantiable msg))
  | .error e => (mgr, .error e)

/-- Packed runtime-signature accessor `RuntimeSignature::n_params`,
from `src/signature.rs`: the low 16 bits of the packed word. -/
def rsigNParams (sig : Nat) : Nat := sig % 65536

/-- Packed runtime-signature accessor `RuntimeSignature::has_result`:
bit 16 of the packed word. -/
def rsigHasResult (sig : Nat) : Bool := sig / 65536 % 2 = 1

/-- Cross-instance dispatch of `call_indirect` in
`Instance::interpret` (`src/instance.rs`, the `owner_id != self.id`
block).  Given the registry, the decoded owner id and function index,
the expected packed signature and the current value stack, it returns
`none` where the Rust code would panic (out-of-bounds function index
or a stack shorter than the parameter count), and otherwise the
observable outcome: `sig_ok` remains false both when the owner is
absent and when the signature differs, and in either case the trap is
`indirect call type mismatch`; a failed dispatch of a
signature-correct callee is reported as `function has no
implementation`; a successful dispatch pushes the callee's final
sub-stack back onto the caller's stack. -/
def callIndirectCross (mgr : InstanceManager) (owner_id func_idx expected : Nat)
    (stack : List WasmValue) : Option (Except Error (List WasmValue)) :=
  match mgr.get_instance owner_id with
  | none => some (.error (.trap INDIRECT_CALL_MISMATCH))
  | some owner =>
    match owner.functions.get? func_idx with
    | none => none
    | some callee =>
      if callee.sig = expected then
        let n_params := rsigNParams callee.sig
        if n_params ≤ stack.length then
          let tmp_stack := (stack.take n_params).reverse
          let kept := stack.drop n_params
          match callee.call tmp_stack with
          | .ok finalStack => some (.ok (finalStack.reverse ++ kept))
          | .error _ => some (.error (.trap FUNC_NO_IMPL))
        else none
      else some (.error (.trap INDIRECT_CALL_MISMATCH))

-- ----------------------------------------------------------------
-- Interpreter call machinery (`src/instance.rs`)
-- ----------------------------------------------------------------

/-- Runtime control frame, from `struct ControlFrame` in
`src/instance.rs`. -/
structure ControlFrame where
  stack_len : Nat
  dest_pc : Nat
  arity : Nat
  has_result : Bool
deriving DecidableEq, Repr

/-- Mutable interpreter state threaded through `Instance::interpret`:
the value stack, the control-frame stack, the function-base stack and
the control-base stack.  All four are Rust `Vec`s; here the top of
each stack is the head of the list. -/
structure MachSt where
  stack : List WasmValue
  control : List ControlFrame
  func_bases : List Nat
  ctrl_bases : List Nat
deriving DecidableEq, Repr

/-- Depth cap `MAX_CONTROL_DEPTH` of `setup_wasm_function_call`. -/
def MAX_CONTROL_DEPTH : Nat := 1000

/-- Depth cap `MAX_CALL_DEPTH` of `call_function_idx`. -/
def MAX_CALL_DEPTH : Nat := 1000

/-- Frame setup `Instance::setup_wasm_function_call`, from
`src/instance.rs`: computes `locals_start`, grows the value stack by
`locals_count` default cells, pushes the return-sentinel control
frame, enforces the control-depth cap (note: after the push), then
records the frame bases.  The mutated state is returned alongside the
`Result`: on the trap path the sentinel has already been pushed but
the bases have not. -/
def setup_wasm_function_call (runtime_sig pc_start locals_count : Nat)
    (stack : List WasmValue) (control : List ControlFrame)
    (func_bases ctrl_bases : List Nat) (return_dest : Nat) :
    MachSt × Except Error Nat :=
  let n_params := rsigNParams runtime_sig
  let has_result := rsigHasResult runtime_sig
  let locals_start := stack.length - n_params
  let stack1 := List.replicate locals_count (WasmValue.mk 0) ++ stack
  let frame : ControlFrame :=
    { stack_len := locals_start
      dest_pc := return_dest
      arity := if has_result then 1 else 0
      has_result := has_result }
  let control1 := frame :: control
  if control1.length > MAX_CONTROL_DEPTH then
    (⟨stack1, control1, func_bases, ctrl_bases⟩, .error (.trap STACK_EXHAUSTED))
  else
    (⟨stack1, control1, locals_start :: func_bases, (control1.length - 1) :: ctrl_bases⟩,
      .ok pc_start)

/-- Branch resolution `Instance::branch`, from `src/instance.rs`.
Returns the new `pc`, the new value stack, the new control stack, and
the boolean that is true when the function should return (the control
stack emptied or the depth exceeded it).  `Vec::truncate(keep)` keeps
the bottom `keep` frames, which in the top-at-head model drops
`depth` frames from the head. -/
def branchStep (pc : Nat) (stack : List WasmValue) (control : List ControlFrame)
    (depth : Nat) : Nat × List WasmValue × List ControlFrame × Bool :=
  let len := control.length
  if depth ≥ len then (pc, stack, control, true)
  else
    match control.drop depth with
    | [] => (pc, stack, control.drop depth, true)
    | target :: rest =>
      let result_arity := target.arity
      if result_arity > 0 then
        let stack_len := stack.length
        let src_start := stack_len - result_arity
        let stack1 :=
          if src_start > target.stack_len then
            stack.take result_arity ++ stack.drop (stack_len - target.stack_len)
          else stack
        let stack2 := stack1.drop (stack1.length - (target.stack_len + result_arity))
        (target.dest_pc, stack2, rest, rest.isEmpty)
      else
        (target.dest_pc, stack.drop (stack.length - target.stack_len), rest, rest.isEmpty)

/-- Block entry, interpreter case `0x02` of `Instance::interpret`
(`src/instance.rs`).  The side-table entry for the block opcode —
`(body_pc, end_pc, else_pc, params_len, has_result)` — is passed in
directly; the side-table itself is produced by the validator and is
modelled from the spec (the `Module` revision in `src/` predates the
`side_table` field).  A control frame is pushed with no depth check
of any kind, and execution continues at `body_pc`. -/
def execBlockEntry (entry : Nat × Nat × Nat × Nat × Bool)
    (stack : List WasmValue) (control : List ControlFrame) :
    Nat × List ControlFrame :=
  let (body_pc, end_pc, _else_pc, params_len, has_result) := entry
  (body_pc,
    { stack_len := stack.length - params_len
      dest_pc := end_pc
      arity := if has_result then 1 else 0
      has_result := has_result } :: control)

/-- Owner instance of an imported-wasm runtime function, as reachable
through an upgraded weak handle: the observable behaviour of its
`call_function_idx` on a function index, a return pc and the shared
interpreter state. -/
structure OwnerModel where
  callIdx : Nat → Nat → MachSt → MachSt × Except Error Unit

/-- Runtime function descriptor, from `enum RuntimeFunction` in
`src/instance.rs`.  The owner of an imported-wasm function is the
result of upgrading its weak handle (`none` when the owner is gone);
a host function is its pure callback. -/
inductive RuntimeFunction where
  | ownedWasm (runtime_sig pc_start locals_count : Nat)
  | importedWasm (runtime_sig : Nat) (owner : Option OwnerModel) (function_index : Nat)
  | host (runtime_sig : Nat) (callback : List WasmValue → Option WasmValue)

/-- Accessor `RuntimeFunction::signature`. -/
def RuntimeFunction.signature : RuntimeFunction → Nat
  | .ownedWasm sig _ _ => sig
  | .importedWasm sig _ _ => sig
  | .host sig _ => sig

/-- Accessor `RuntimeFunction::param_count`. -/
def RuntimeFunction.param_count (f : RuntimeFunction) : Nat :=
  rsigNParams f.signature

/-- Shape of the recursive call `self.interpret(pc, ...)` made by
`call_function_idx` for an owned-wasm callee; the interpreter loop
itself is abstracted as a state transformer. -/
def InterpFn : Type := Nat → MachSt → MachSt × Except Error Unit

/-- Host-callback invocation as performed by `call_function_idx` and
the `call` opcodes: the top `param_count` values are passed in
bottom-up order, the parameters are truncated away, and an optional
result is pushed. -/
def hostCall (callback : List WasmValue → Option WasmValue) (param_count : Nat)
    (stack : List WasmValue) : List WasmValue :=
  let params := (stack.take param_count).reverse
  match callback params with
  | some result => result :: stack.drop param_count
  | none => stack.drop param_count

/-- Function-call dispatch `Instance::call_function_idx`, from
`src/instance.rs`: the call-depth cap is checked against the
function-base stack before anything else; an owned-wasm callee is set
up in place and run by the interpreter; an imported-wasm callee is
dispatched into its owner (or traps with `function has no
implementation` when the owner is gone); a host callee runs its
callback on the top parameter slice. -/
def call_function_idx (interp : InterpFn) (f : RuntimeFunction) (return_pc : Nat)
    (st : MachSt) : MachSt × Except Error Unit :=
  if st.func_bases.length ≥ MAX_CALL_DEPTH then
    (st, .error (.trap STACK_EXHAUSTED))
  else
    match f with
    | .ownedWasm sig pc_start locals_count =>
      match setup_wasm_function_call sig pc_start locals_count
          st.stack st.control st.func_bases st.ctrl_bases return_pc with
      | (st', .error e) => (st', .error e)
      | (st', .ok pc) => interp pc st'
    | .importedWasm _ owner function_index =>
      match owner with
      | some ow => ow.callIdx function_index return_pc st
      | none => (st, .error (.trap FUNC_NO_IMPL))
    | .host sig callback =>
      ({ st with stack := hostCall callback (rsigNParams sig) st.stack }, .ok ())

/-- Entry point `Instance::invoke`, from `src/instance.rs`: the arity
check comes first and produces `Trap("invalid number of arguments")`;
then the value stack is seeded with the arguments and the callee runs
to completion; the final value stack is returned.  The interpreter
loop is abstracted as `interp`; the seeded stack is `args.reverse`
because arguments are pushed in order. -/
def invoke (interp : InterpFn) (f : RuntimeFunction) (args : List WasmValue) :
    Except Error (List WasmValue) :=
  let n_params := f.param_count
  if n_params ≠ args.length then .error (.trap INVALID_NUM_ARG)
  else
    match f with
    | .ownedWasm sig pc_start locals_count =>
      match setup_wasm_function_call sig pc_start locals_count
          args.reverse [] [] [] 0 with
      | (_, .error e) => .error e
      | (st, .ok pc) =>
        match interp pc st with
        | (st', .ok ()) => .ok st'.stack
        | (_, .error e) => .error e
    | .importedWasm _ owner function_index =>
      match owner with
      | some ow =>
        match ow.callIdx function_index 0 ⟨args.reverse, [], [], []⟩ with
        | (st', .ok ()) => .ok st'.stack
        | (_, .error e) => .error e
      | none => .error (.trap FUNC_NO_IMPL)
    | .host _ callback =>
      match callback args with
      | some result => .ok [result]
      | none => .ok []

-- ----------------------------------------------------------------
-- Module decoder (`src/module.rs`)
-- ----------------------------------------------------------------

/-- Value type of the decoder revision in `src/module.rs` (which uses
the `spec.rs` catalogue including the `Null` placeholder). -/
inductive ValType where
  | null
  | any
  | i32
  | i64
  | f32
  | f64
deriving DecidableEq, Repr

/-- Predicate `is_val_type`: exactly the bytes `0x7c..=0x7f`. -/
def is_val_type (byte : Nat) : Bool :=
  byte = 0x7f ∨ byte = 0x7e ∨ byte = 0x7d ∨ byte = 0x7c

/-- Conversion `valtype_from_byte`. -/
def valtype_from_byte (byte : Nat) : Option ValType :=
  if byte = 0x7f then some .i32
  else if byte = 0x7e then some .i64
  else if byte = 0x7d then some .f32
  else if byte = 0x7c then some .f64
  else if byte = 0x00 then some .null
  else if byte = 0xff then some .any
  else none

/-- Function signature of the decoder revision (`spec.rs`
generation): parameter list, single result slot and a result count of
0 or 1. -/
structure SpecSig where
  params : List ValType
  result : ValType
  result_count : Nat
deriving DecidableEq, Repr

/-- Default signature: no parameters, `Null` result, count 0. -/
def SpecSig.default : SpecSig := ⟨[], .null, 0⟩

/-- Import/export kind, from `enum ExternType` in `src/module.rs`. -/
inductive ExternType where
  | func
  | table
  | mem
  | global
deriving DecidableEq, Repr

/-- Conversion `ExternType::from_byte`. -/
def ExternType.from_byte (byte : Nat) : Option ExternType :=
  if byte = 0 then some .func
  else if byte = 1 then some .table
  else if byte = 2 then some .mem
  else if byte = 3 then some .global
  else none

/-- Import reference `(module name, field name)`, both kept as raw
byte lists (the Rust code holds the UTF-8 validated `String`s). -/
abbrev ImportRefM : Type := List Nat × List Nat

/-- Function descriptor of the module being decoded, from
`struct Function` in `src/module.rs`; the body is a byte range. -/
structure FunctionM where
  body_start : Nat
  body_end : Nat
  ty : SpecSig
  locals : List ValType
  imp : Option ImportRefM
  is_declared : Bool
deriving DecidableEq, Repr

/-- Table descriptor, from `struct Table` in `src/module.rs`. -/
structure TableM where
  min : Nat
  max : Nat
  ty : ValType
  imp : Option ImportRefM
deriving DecidableEq, Repr

/-- Memory descriptor, from `struct Memory` in `src/module.rs`. -/
structure MemoryM where
  min : Nat
  max : Nat
  imp : Option ImportRefM
deriving DecidableEq, Repr

/-- Global descriptor, from `struct Global` in `src/module.rs`. -/
structure GlobalM where
  ty : ValType
  is_mutable : Bool
  initializer_offset : Nat
  imp : Option ImportRefM
deriving DecidableEq, Repr

/-- Export descriptor, from `struct Export` in `src/module.rs`. -/
structure ExportM where
  extern_type : ExternType
  idx : Nat
deriving DecidableEq, Repr

/-- Data-segment descriptor, from `struct DataSegment` in
`src/module.rs`. -/
structure DataSegM where
  range_start : Nat
  range_end : Nat
  initializer_offset : Nat
deriving DecidableEq, Repr

/-- Module object under construction, from `struct Module` in
`src/module.rs` (the fields written by `Module::initialize`; the
validator-populated jump tables are outside this decoder model). -/
structure ModuleSt where
  types : List SpecSig
  imports : List (List Nat × List (List Nat × ExternType))
  table : Option TableM
  memory : Option MemoryM
  globals : List GlobalM
  exports : List (List Nat × ExportM)
  start : Nat
  element_start : Nat
  elements : List ValType
  functions : List FunctionM
  n_data : Nat
  data_segments : List DataSegM
deriving DecidableEq, Repr

/-- Initial module object built by `Module::compile`: everything
empty, with the start index at the `u32::MAX` sentinel. -/
def ModuleSt.empty : ModuleSt :=
  { types := [], imports := [], table := none, memory := none, globals := []
    exports := [], start := U32_MAX, element_start := 0, elements := []
    functions := [], n_data := 0, data_segments := [] }

/-- Cap `Module::MAX_LOCALS`. -/
def MAX_LOCALS : Nat := 50000

/-- Magic header bytes `\0asm`. -/
def MAGIC_HEADER : List Nat := [0x00, 0x61, 0x73, 0x6d]

/-- Cursor test `ByteIter::empty`, from `src/byte_iter.rs`. -/
def iterEmpty (bytes : List Nat) (idx : Nat) : Bool := bytes.length ≤ idx

/-- Cursor test `ByteIter::has_n_left`, from `src/byte_iter.rs`. -/
def has_n_left (bytes : List Nat) (idx n : Nat) : Bool := idx + n ≤ bytes.length

/-- Cursor read `ByteIter::read_u8`, from `src/byte_iter.rs`. -/
def read_u8 (bytes : List Nat) (idx : Nat) : Except Error (Nat × Nat) :=
  match bytes.get? idx with
  | some b => .ok (b, idx + 1)
  | none => .error (.malformed UNEXPECTED_END)

/-- Modelled from the spec: the loop of the unsigned LEB128 reader
`safe_read_leb128` (the revision of `src/leb128.rs` in `src/` is an
older generation that does not define it).  Per spec section 4.1 the
reader enforces the canonical-length bound of at most `⌈bits/7⌉`
bytes (`integer representation too long`), rejects values whose bits
exceed the declared width (`integer too large`), and reports a
truncated stream as `unexpected end`. -/
def uleb_go (bytes : List Nat) (bits : Nat) : Nat → Nat → Nat → Nat → Except Error (Nat × Nat)
  | _, _, _, 0 => .error (.malformed INT_TOO_LONG)
  | idx, shift, acc, fuel + 1 =>
    match bytes.get? idx with
    | none => .error (.malformed UNEXPECTED_END)
    | some byte =>
      let acc' := acc + byte % 128 * 2 ^ shift
      if byte % 256 < 128 then
        if acc' < 2 ^ bits then .ok (acc', idx + 1)
        else .error (.malformed INT_TOO_LARGE)
      else uleb_go bytes bits (idx + 1) (shift + 7) acc' fuel

/-- Modelled from the spec: unsigned LEB128 reader
`safe_read_leb128(bytes, idx, bits)`, returning the decoded value and
the new cursor. -/
def safe_read_leb128 (bytes : List Nat) (idx bits : Nat) : Except Error (Nat × Nat) :=
  uleb_go bytes bits idx 0 0 ((bits + 6) / 7)

/-- Modelled from the spec: the loop of the signed LEB128 reader
`safe_read_sleb128`, with sign extension from the final byte and the
width check of spec section 4.1. -/
def sleb_go (bytes : List Nat) (bits : Nat) : Nat → Nat → Nat → Nat → Except Error (Int × Nat)
  | _, _, _, 0 => .error (.malformed INT_TOO_LONG)
  | idx, shift, acc, fuel + 1 =>
    match bytes.get? idx with
    | none => .error (.malformed UNEXPECTED_END)
    | some byte =>
      let acc' := acc + byte % 128 * 2 ^ shift
      if byte % 256 < 128 then
        let value : Int :=
          if byte / 64 % 2 = 1 then (acc' : Int) - 2 ^ (shift + 7) else (acc' : Int)
        if -(2 ^ (bits - 1) : Int) ≤ value ∧ value < 2 ^ (bits - 1) then .ok (value, idx + 1)
        else .error (.malformed INT_TOO_LARGE)
      else sleb_go bytes bits (idx + 1) (shift + 7) acc' fuel

/-- Modelled from the spec: signed LEB128 reader
`safe_read_sleb128(bytes, idx, bits)`. -/
def safe_read_sleb128 (bytes : List Nat) (idx bits : Nat) : Except Error (Int × Nat) :=
  sleb_go bytes bits idx 0 0 ((bits + 6) / 7)

/-- Continuation-byte test of UTF-8. -/
def utf8_cont (b : Nat) : Bool := 0x80 ≤ b ∧ b ≤ 0xbf

/-- Modelled from the spec: the UTF-8 validity check `is_utf8` used on
custom-section and import names (the Rust code delegates to
`std::str::from_utf8`); this is the standard RFC 3629 byte-level
classification. -/
def is_utf8 : List Nat → Bool
  | [] => true
  | b :: t =>
    if b ≤ 0x7f then is_utf8 t
    else if 0xc2 ≤ b ∧ b ≤ 0xdf then
      match t with
      | c1 :: t' => utf8_cont c1 && is_utf8 t'
      | [] => false
    else if b = 0xe0 then
      match t with
      | c1 :: c2 :: t' => (0xa0 ≤ c1 ∧ c1 ≤ 0xbf : Bool) && utf8_cont c2 && is_utf8 t'
      | _ => false
    else if (0xe1 ≤ b ∧ b ≤ 0xec) ∨ b = 0xee ∨ b = 0xef then
      match t with
      | c1 :: c2 :: t' => utf8_cont c1 && utf8_cont c2 && is_utf8 t'
      | _ => false
    else if b = 0xed then
      match t with
      | c1 :: c2 :: t' => (0x80 ≤ c1 ∧ c1 ≤ 0x9f : Bool) && utf8_cont c2 && is_utf8 t'
      | _ => false
    else if b = 0xf0 then
      match t with
      | c1 :: c2 :: c3 :: t' =>
        (0x90 ≤ c1 ∧ c1 ≤ 0xbf : Bool) && utf8_cont c2 && utf8_cont c3 && is_utf8 t'
      | _ => false
    else if 0xf1 ≤ b ∧ b ≤ 0xf3 then
      match t with
      | c1 :: c2 :: c3 :: t' => utf8_cont c1 && utf8_cont c2 && utf8_cont c3 && is_utf8 t'
      | _ => false
    else if b = 0xf4 then
      match t with
      | c1 :: c2 :: c3 :: t' =>
        (0x80 ≤ c1 ∧ c1 ≤ 0x8f : Bool) && utf8_cont c2 && utf8_cont c3 && is_utf8 t'
      | _ => false
    else false

/-- Loop body of `ignore_custom_section`, from `src/module.rs`,
fuelled by the remaining byte count (each iteration advances the
cursor by at least two bytes, so the fuel never runs out on the
inputs considered; exhaustion is reported as `unexpected end`). -/
def ignore_custom_go (bytes : List Nat) : Nat → Nat → Except Error Nat
  | _, 0 => .error (.malformed UNEXPECTED_END)
  | idx, fuel + 1 =>
    if iterEmpty bytes idx then .ok idx
    else if bytes.get? idx ≠ some 0 then .ok idx
    else if has_n_left bytes idx 4 && (bytes.drop idx).take 4 == MAGIC_HEADER then .ok idx
    else do
      let idx1 := idx + 1
      let (section_length, idx2) ← safe_read_leb128 bytes idx1 32
      if idx2 + section_length > bytes.length then
        throw (.malformed UNEXPECTED_END)
      let section_start := idx2
      let (name_len, idx3) ← safe_read_leb128 bytes idx2 32
      if idx3 + name_len > bytes.length then
        throw (.malformed UNEXPECTED_END)
      let name_start := idx3
      let idx4 := idx3 + name_len
      if ¬ is_utf8 ((bytes.drop name_start).take name_len) then
        throw (.malformed INVALID_UTF8)
      if section_start + section_length < idx4 then
        throw (.malformed UNEXPECTED_END)
      ignore_custom_go bytes (section_start + section_length) fuel

/-- Custom-section skipper `ignore_custom_section`, from
`src/module.rs`: repeatedly skips id-0 sections (after validating the
length-prefixed UTF-8 name), stopping at a non-custom id, at the end
of input, or at a concatenated-module magic header. -/
def ignore_custom_section (bytes : List Nat) (idx : Nat) : Except Error Nat :=
  ignore_custom_go bytes idx (bytes.length + 1)

/-- Section combinator `section`, from `src/module.rs` (lines
652-672): if the next byte equals the requested id, the
length-prefixed payload is handed to the reader and the consumed size
is checked exactly; otherwise, a next byte greater than 11 is
`invalid section id`; in every case trailing custom sections are then
skipped.  A standard id smaller than or out of order with the
requested one is simply left unconsumed. -/
def sectionRead (bytes : List Nat) (id : Nat)
    (reader : ModuleSt → Nat → Except Error (ModuleSt × Nat))
    (st : ModuleSt) (idx : Nat) : Except Error (ModuleSt × Nat) := do
  let (st1, idx1) ←
    if !iterEmpty bytes idx && bytes.get? idx == some id then do
      let (section_length, i2) ← safe_read_leb128 bytes (idx + 1) 32
      let section_start := i2
      if section_start + section_length > bytes.length then
        throw (.malformed UNEXPECTED_END)
      let (st', i3) ← reader st i2
      if i3 - section_start ≠ section_length then
        throw (.malformed SECTION_SIZE_MISMATCH)
      pure (st', i3)
    else if !iterEmpty bytes idx && (bytes.get? idx).getD 0 > 11 then
      throw (.malformed INVALID_SECTION_ID)
    else
      pure (st, idx)
  let idx2 ← ignore_custom_section bytes idx1
  pure (st1, idx2)

/-- Modelled from the spec: the mutability byte of a global is 0
(immutable) or 1 (mutable); the helper `mutability_from_byte` used by
`src/module.rs` is absent from the `src/` snapshot. -/
def mutability_from_byte (byte : Nat) : Option Bool :=
  if byte = 0 then some false else if byte = 1 then some true else none

/-- Limits reader `get_limits`, from `src/module.rs`: a one-bit flags
field, an initial value, and an explicit maximum only when the flag
is 1 (otherwise the supplied upper bound). -/
def get_limits (bytes : List Nat) (idx upper : Nat) : Except Error (Nat × Nat × Nat) := do
  let (flags, i1) ← safe_read_leb128 bytes idx 1
  let (initial, i2) ← safe_read_leb128 bytes i1 32
  let (max, i3) ←
    if flags = 1 then safe_read_leb128 bytes i2 32
    else pure (upper, i2)
  if max < initial then throw (.validation MIN_GREATER_THAN_MAX)
  pure (initial, max, i3)

/-- Limits reader `get_memory_limits`, from `src/module.rs`. -/
def get_memory_limits (bytes : List Nat) (idx : Nat) : Except Error (Nat × Nat × Nat) := do
  let (initial, max, i1) ← get_limits bytes idx MAX_PAGES
  if initial > MAX_PAGES ∨ max > MAX_PAGES then throw (.validation MEMORY_SIZE_LIMIT)
  pure (initial, max, i1)

/-- Limits reader `get_table_limits`, from `src/module.rs`. -/
def get_table_limits (bytes : List Nat) (idx : Nat) : Except Error (Nat × Nat × Nat) :=
  get_limits bytes idx U32_MAX

/-- Parameter-vector loop of `parse_type_section`. -/
def parse_type_params (bytes : List Nat) : Nat → Nat → List ValType → Except Error (List ValType × Nat)
  | idx, 0, acc => .ok (acc.reverse, idx)
  | idx, n + 1, acc => do
    let (ty, i1) ← read_u8 bytes idx
    if ¬ is_val_type ty then throw (.malformed INVALID_VALUE_TYPE)
    parse_type_params bytes i1 n ((valtype_from_byte ty).getD .null :: acc)

/-- Entry loop of `parse_type_section`, from `src/module.rs`: each
entry must open with `0x60`, then a parameter vector and a result
vector of length at most one. -/
def parse_type_items (bytes : List Nat) : Nat → ModuleSt → Nat → Except Error (ModuleSt × Nat)
  | 0, st, idx => .ok (st, idx)
  | n + 1, st, idx => do
    if iterEmpty bytes idx then throw (.malformed UNEXPECTED_END)
    let (byte, i1) ← read_u8 bytes idx
    if byte ≠ 0x60 then throw (.malformed INT_TOO_LONG)
    let (n_params, i2) ← safe_read_leb128 bytes i1 32
    let (params, i3) ← parse_type_params bytes i2 n_params []
    let (n_results, i4) ← safe_read_leb128 bytes i3 32
    if n_results > 1 then throw (.malformed INVALID_RESULT_ARITY)
    if n_results = 1 then do
      let (ty, i5) ← read_u8 bytes i4
      if ¬ is_val_type ty then throw (.malformed INVALID_RESULT_TYPE)
      let sig : SpecSig := ⟨params, (valtype_from_byte ty).getD .null, 1⟩
      parse_type_items bytes n { st with types := st.types ++ [sig] } i5
    else
      parse_type_items bytes n { st with types := st.types ++ [⟨params, .null, 0⟩] } i4

/-- Section reader `parse_type_section`, from `src/module.rs`. -/
def parse_type_section (bytes : List Nat) (st : ModuleSt) (idx : Nat) :
    Except Error (ModuleSt × Nat) := do
  let (n_types, i1) ← safe_read_leb128 bytes idx 32
  parse_type_items bytes n_types st i1

/-- Length-prefixed, bounds- and UTF-8-checked name read, as done
for the module and field names in `parse_import_section`. -/
def read_name_checked (bytes : List Nat) (idx : Nat) : Except Error (List Nat × Nat) := do
  let (len, i1) ← safe_read_leb128 bytes idx 32
  if i1 + len > bytes.length then throw (.malformed UNEXPECTED_END)
  let name := (bytes.drop i1).take len
  if ¬ is_utf8 name then throw (.malformed INVALID_UTF8)
  pure (name, i1 + len)

/-- Entry loop of `parse_import_section`, from `src/module.rs`. -/
def parse_import_items (bytes : List Nat) : Nat → ModuleSt → Nat → Except Error (ModuleSt × Nat)
  | 0, st, idx => .ok (st, idx)
  | n + 1, st, idx => do
    if iterEmpty bytes idx then throw (.malformed UNEXPECTED_END)
    let (module_name, i1) ← read_name_checked bytes idx
    let (field_name, i2) ← read_name_checked bytes i1
    let (kind, i3) ← read_u8 bytes i2
    match ExternType.from_byte kind with
    | none => throw (.malformed MALFORMED_IMPORT_KIND)
    | some extern_type =>
      let fields := (alistFind st.imports module_name).getD []
      let st := { st with
        imports := alistInsert st.imports module_name (alistInsert fields field_name extern_type) }
      let imp : Option ImportRefM := some (module_name, field_name)
      match extern_type with
      | .func => do
        let (type_idx, i4) ← safe_read_leb128 bytes i3 32
        if type_idx ≥ st.types.length then throw (.validation UNKNOWN_TYPE)
        let f : FunctionM := ⟨0, 0, (st.types.get? type_idx).getD SpecSig.default, [], imp, false⟩
        parse_import_items bytes n { st with functions := st.functions ++ [f] } i4
      | .table => do
        if st.table.isSome then throw (.validation MULTIPLE_TABLES)
        let (reftype, i4) ← safe_read_leb128 bytes i3 32
        if reftype ≠ 0x70 then throw (.malformed MALFORMED_REF_TYPE)
        let (tmin, tmax, i5) ← get_table_limits bytes i4
        parse_import_items bytes n { st with table := some ⟨tmin, tmax, .f64, imp⟩ } i5
      | .mem => do
        if st.memory.isSome then throw (.validation MULTIPLE_MEMORIES)
        let (mmin, mmax, i4) ← get_memory_limits bytes i3
        parse_import_items bytes n { st with memory := some ⟨mmin, mmax, imp⟩ } i4
      | .global => do
        let (tyv, i4) ← safe_read_leb128 bytes i3 32
        if ¬ is_val_type (tyv % 256) then throw (.malformed INVALID_GLOBAL_TYPE)
        let (mut_byte, i5) ← read_u8 bytes i4
        match mutability_from_byte mut_byte with
        | none => throw (.malformed INVALID_MUTABILITY)
        | some is_mutable =>
          let g : GlobalM := ⟨(valtype_from_byte (tyv % 256)).getD .null, is_mutable, 0, imp⟩
          parse_import_items bytes n { st with globals := st.globals ++ [g] } i5

/-- Section reader `parse_import_section`, from `src/module.rs`. -/
def parse_import_section (bytes : List Nat) (st : ModuleSt) (idx : Nat) :
    Except Error (ModuleSt × Nat) := do
  let (n_imports, i1) ← safe_read_leb128 bytes idx 32
  parse_import_items bytes n_imports st i1

/-- Entry loop of `parse_function_section`, from `src/module.rs`. -/
def parse_function_items (bytes : List Nat) : Nat → ModuleSt → Nat → Except Error (ModuleSt × Nat)
  | 0, st, idx => .ok (st, idx)
  | n + 1, st, idx => do
    if iterEmpty bytes idx then throw (.malformed UNEXPECTED_END)
    let (type_idx, i1) ← safe_read_leb128 bytes idx 32
    if type_idx ≥ st.types.length then throw (.validation UNKNOWN_TYPE)
    let f : FunctionM := ⟨0, 0, (st.types.get? type_idx).getD SpecSig.default, [], none, false⟩
    parse_function_items bytes n { st with functions := st.functions ++ [f] } i1

/-- Section reader `parse_function_section`, from `src/module.rs`. -/
def parse_function_section (bytes : List Nat) (st : ModuleSt) (idx : Nat) :
    Except Error (ModuleSt × Nat) := do
  let (n_functions, i1) ← safe_read_leb128 bytes idx 32
  parse_function_items bytes n_functions st i1

/-- Section reader `parse_table_section`, from `src/module.rs`. -/
def parse_table_section (bytes : List Nat) (st : ModuleSt) (idx : Nat) :
    Except Error (ModuleSt × Nat) := do
  let (n_tables, i1) ← safe_read_leb128 bytes idx 32
  if n_tables > 1 ∨ (n_tables = 1 ∧ st.table.isSome) then
    throw (.validation MULTIPLE_TABLES)
  if n_tables = 1 then do
    if iterEmpty bytes i1 then throw (.malformed UNEXPECTED_END)
    let (elem_type, i2) ← read_u8 bytes i1
    if elem_type ≠ 0x70 then throw (.validation INVALID_TABLE_ELEM_TYPE)
    let (tmin, tmax, i3) ← get_table_limits bytes i2
    pure ({ st with table := some ⟨tmin, tmax, .f64, none⟩ }, i3)
  else
    pure (st, i1)

/-- Section reader `parse_memory_section`, from `src/module.rs`. -/
def parse_memory_section (bytes : List Nat) (st : ModuleSt) (idx : Nat) :
    Except Error (ModuleSt × Nat) := do
  let (n_memories, i1) ← safe_read_leb128 bytes idx 32
  if n_memories > 1 ∨ (n_memories = 1 ∧ st.memory.isSome) then
    throw (.validation MULTIPLE_MEMORIES)
  if n_memories = 1 then do
    if iterEmpty bytes i1 then throw (.malformed UNEXPECTED_END)
    let (mmin, mmax, i2) ← get_memory_limits bytes i1
    pure ({ st with memory := some ⟨mmin, mmax, none⟩ }, i2)
  else
    pure (st, i1)

/-- Loop of the constant-expression validator `Module::validate_const`
(`src/module.rs`), fuelled by the remaining byte count (every
iteration consumes at least one byte). -/
def validate_const_go (bytes : List Nat) (globals : List GlobalM) :
    Nat → List ValType → Nat → Except Error (List ValType × Nat)
  | _, _, 0 => .error (.malformed UNEXPECTED_END)
  | idx, stack, fuel + 1 => do
    let (byte, i1) ← read_u8 bytes idx
    if byte = 0x0b then pure (stack, i1)
    else if byte = 0x23 then do
      let (gidx, i2) ← safe_read_leb128 bytes i1 32
      match globals.get? gidx with
      | none => throw (.validation UNKNOWN_GLOBAL)
      | some g =>
        if g.imp.isNone then throw (.validation UNKNOWN_GLOBAL)
        else if g.is_mutable then throw (.validation CONST_EXP_REQUIRED)
        else validate_const_go bytes globals i2 (g.ty :: stack) fuel
    else if byte = 0x41 then do
      let (_, i2) ← safe_read_sleb128 bytes i1 32
      validate_const_go bytes globals i2 (.i32 :: stack) fuel
    else if byte = 0x42 then do
      let (_, i2) ← safe_read_sleb128 bytes i1 64
      validate_const_go bytes globals i2 (.i64 :: stack) fuel
    else if byte = 0x43 then
      if has_n_left bytes i1 4 then validate_const_go bytes globals (i1 + 4) (.f32 :: stack) fuel
      else throw (.malformed UNEXPECTED_END)
    else if byte = 0x44 then
      if has_n_left bytes i1 8 then validate_const_go bytes globals (i1 + 8) (.f64 :: stack) fuel
      else throw (.malformed UNEXPECTED_END)
    else if byte = 0x6a ∨ byte = 0x6b ∨ byte = 0x6c then
      match stack with
      | .i32 :: .i32 :: rest => validate_const_go bytes globals i1 (.i32 :: rest) fuel
      | _ => throw (.validation TYPE_MISMATCH)
    else if byte = 0x7a ∨ byte = 0x7b ∨ byte = 0x7c then
      match stack with
      | .i64 :: .i64 :: rest => validate_const_go bytes globals i1 (.i64 :: rest) fuel
      | _ => throw (.validation TYPE_MISMATCH)
    else throw (.malformed ILLEGAL_OP)

/-- Constant-expression validator `Module::validate_const`, from
`src/module.rs`: after the loop reaches `end`, exactly one value of
the expected type must remain. -/
def validate_const (bytes : List Nat) (idx : Nat) (expected : ValType)
    (globals : List GlobalM) : Except Error Nat := do
  let (stack, i1) ← validate_const_go bytes globals idx [] (bytes.length + 1)
  if stack = [expected] then pure i1 else throw (.validation TYPE_MISMATCH)

/-- Entry loop of `parse_global_section`, from `src/module.rs`: the
global is pushed before its initializer is validated (so the
initializer may in principle see it). -/
def parse_global_items (bytes : List Nat) : Nat → ModuleSt → Nat → Except Error (ModuleSt × Nat)
  | 0, st, idx => .ok (st, idx)
  | n + 1, st, idx => do
    if iterEmpty bytes idx then throw (.malformed UNEXPECTED_END)
    let (ty, i1) ← read_u8 bytes idx
    if ¬ is_val_type ty then throw (.malformed INVALID_GLOBAL_TYPE)
    let (mut_byte, i2) ← read_u8 bytes i1
    match mutability_from_byte mut_byte with
    | none => throw (.malformed INVALID_MUTABILITY)
    | some is_mutable =>
      let g : GlobalM := ⟨(valtype_from_byte ty).getD .null, is_mutable, i2, none⟩
      let st := { st with globals := st.globals ++ [g] }
      let i3 ← validate_const bytes i2 ((valtype_from_byte ty).getD .null) st.globals
      parse_global_items bytes n st i3

/-- Section reader `parse_global_section`, from `src/module.rs`. -/
def parse_global_section (bytes : List Nat) (st : ModuleSt) (idx : Nat) :
    Except Error (ModuleSt × Nat) := do
  let (n_globals, i1) ← safe_read_leb128 bytes idx 32
  parse_global_items bytes n_globals st i1

/-- Setter for the `is_declared` flag of the function at an index. -/
def markDeclared : List FunctionM → Nat → List FunctionM
  | [], _ => []
  | f :: t, 0 => { f with is_declared := true } :: t
  | f :: t, i + 1 => f :: markDeclared t i

/-- Entry loop of `parse_export_section`, from `src/module.rs`:
duplicate names are rejected, each descriptor index is
bounds-checked by kind (note the source condition for memory exports:
`export_idx != 0 || self.memory.is_some()`), and exported functions
are marked declared. -/
def parse_export_items (bytes : List Nat) : Nat → ModuleSt → Nat → Except Error (ModuleSt × Nat)
  | 0, st, idx => .ok (st, idx)
  | n + 1, st, idx => do
    if iterEmpty bytes idx then throw (.malformed UNEXPECTED_END)
    let (name_len, i1) ← safe_read_leb128 bytes idx 32
    if i1 + name_len > bytes.length then throw (.malformed UNEXPECTED_END)
    let name := (bytes.drop i1).take name_len
    let i2 := i1 + name_len
    let (kind, i3) ← read_u8 bytes i2
    match ExternType.from_byte kind with
    | none => throw (.validation INVALID_EXPORT_DESC)
    | some extern_type => do
      let (export_idx, i4) ← safe_read_leb128 bytes i3 32
      if (alistFind st.exports name).isSome then throw (.validation DUP_EXPORT_NAME)
      let st ←
        match extern_type with
        | .func =>
          if export_idx ≥ st.functions.length then throw (.validation UNKNOWN_FUNC)
          else pure { st with functions := markDeclared st.functions export_idx }
        | .table =>
          if export_idx ≠ 0 then throw (.validation UNKNOWN_TABLE)
          else pure st
        | .mem =>
          if export_idx ≠ 0 ∨ st.memory.isSome then throw (.validation UNKNOWN_MEMORY)
          else pure st
        | .global =>
          if export_idx ≥ st.globals.length then throw (.validation UNKNOWN_GLOBAL)
          else pure st
      parse_export_items bytes n
        { st with exports := alistInsert st.exports name ⟨extern_type, export_idx⟩ } i4

/-- Section reader `parse_export_section`, from `src/module.rs`. -/
def parse_export_section (bytes : List Nat) (st : ModuleSt) (idx : Nat) :
    Except Error (ModuleSt × Nat) := do
  let (n_exports, i1) ← safe_read_leb128 bytes idx 32
  parse_export_items bytes n_exports st i1

/-- Section reader `parse_start_section`, from `src/module.rs`. -/
def parse_start_section (bytes : List Nat) (st : ModuleSt) (idx : Nat) :
    Except Error (ModuleSt × Nat) := do
  let (start, i1) ← safe_read_leb128 bytes idx 32
  if start ≥ st.functions.length then throw (.validation UNKNOWN_FUNC)
  pure ({ st with start := start }, i1)

/-- Function-index loop of an element segment in
`parse_element_section`. -/
def parse_elem_indices (bytes : List Nat) : Nat → ModuleSt → Nat → Except Error (ModuleSt × Nat)
  | 0, st, idx => .ok (st, idx)
  | n + 1, st, idx => do
    let (elem_idx, i1) ← safe_read_leb128 bytes idx 32
    if elem_idx ≥ st.functions.length then throw (.validation UNKNOWN_FUNC)
    parse_elem_indices bytes n { st with functions := markDeclared st.functions elem_idx } i1

/-- Entry loop of `parse_element_section`, from `src/module.rs`. -/
def parse_element_items (bytes : List Nat) : Nat → ModuleSt → Nat → Except Error (ModuleSt × Nat)
  | 0, st, idx => .ok (st, idx)
  | n + 1, st, idx => do
    if iterEmpty bytes idx then throw (.malformed UNEXPECTED_END)
    let (flags, i1) ← safe_read_leb128 bytes idx 32
    if flags ≠ 0 then throw (.malformed INVALID_VALUE_TYPE)
    if st.table.isNone then throw (.validation UNKNOWN_TABLE)
    let i2 ← validate_const bytes i1 .i32 st.globals
    let (n_elems, i3) ← safe_read_leb128 bytes i2 32
    let (st, i4) ← parse_elem_indices bytes n_elems st i3
    parse_element_items bytes n { st with elements := st.elements ++ [.f64] } i4

/-- Section reader `parse_element_section`, from `src/module.rs`: the
element cursor is recorded right after the segment count. -/
def parse_element_section (bytes : List Nat) (st : ModuleSt) (idx : Nat) :
    Except Error (ModuleSt × Nat) := do
  let (n_elements, i1) ← safe_read_leb128 bytes idx 32
  parse_element_items bytes n_elements { st with element_start := i1 } i1

/-- Push loop for one local-declaration group of the code section,
with the `MAX_LOCALS` cap checked after every push. -/
def push_locals : List ValType → ValType → Nat → Except Error (List ValType)
  | locals, _, 0 => .ok locals
  | locals, vt, n + 1 =>
    let locals' := locals ++ [vt]
    if locals'.length > MAX_LOCALS then .error (.malformed TOO_MANY_LOCALS)
    else push_locals locals' vt n

/-- Local-declaration loop of one code entry in
`parse_code_section`. -/
def parse_local_decls (bytes : List Nat) : Nat → List ValType → Nat → Except Error (List ValType × Nat)
  | 0, locals, idx => .ok (locals, idx)
  | n + 1, locals, idx => do
    let (n_locals, i1) ← safe_read_leb128 bytes idx 32
    let (ty, i2) ← read_u8 bytes i1
    if ¬ is_val_type ty then throw (.validation INVALID_LOCAL_TYPE)
    let locals' ← push_locals locals ((valtype_from_byte ty).getD .null) n_locals
    parse_local_decls bytes n locals' i2

/-- Per-function loop of `parse_code_section`, from `src/module.rs`,
iterating over the function vector by index; imported functions are
skipped.  The function-body validator is supplied as a parameter: the
revision of the validator that matches this decoder's `Module` layout
is absent from the `src/` snapshot (the decoder is invoked as
`Validator::new(self).validate_function(i)`), so its behaviour is
left abstract; the body byte range recorded and the cursor advance do
not depend on it.  `body_length` is a Rust `usize` subtraction, whose
underflow would abort the process rather than return an error. -/
def parse_code_items (validate : ModuleSt → Nat → Except Error Unit) (bytes : List Nat) :
    Nat → Nat → ModuleSt → Nat → Except Error (ModuleSt × Nat)
  | _, 0, st, idx => .ok (st, idx)
  | i, remaining + 1, st, idx =>
    match st.functions.get? i with
    | none => .ok (st, idx)
    | some f =>
      if f.imp.isSome then parse_code_items validate bytes (i + 1) remaining st idx
      else do
        let (function_length, i1) ← safe_read_leb128 bytes idx 32
        let func_start := i1
        let (n_local_decls, i2) ← safe_read_leb128 bytes i1 32
        let (locals, i3) ← parse_local_decls bytes n_local_decls f.ty.params i2
        let body_start := i3
        let body_length := function_length - (body_start - func_start)
        let f' := { f with
          locals := locals
          body_start := body_start
          body_end := body_start + body_length }
        let st' := { st with functions := st.functions.set i f' }
        let _u ← validate st' i
        parse_code_items validate bytes (i + 1) remaining st' (i3 + body_length)

/-- Section reader `parse_code_section`, from `src/module.rs`: the
entry count plus the number of imported functions must equal the
function-vector length. -/
def parse_code_section (validate : ModuleSt → Nat → Except Error Unit) (bytes : List Nat)
    (st : ModuleSt) (idx : Nat) : Except Error (ModuleSt × Nat) := do
  let (n_functions, i1) ← safe_read_leb128 bytes idx 32
  let n_imports := (st.functions.filter (fun f => f.imp.isSome)).length
  if n_functions + n_imports ≠ st.functions.length then
    throw (.malformed FUNC_CODE_INCONSISTENT)
  parse_code_items validate bytes 0 st.functions.length st i1

/-- Entry loop of `parse_data_section`, from `src/module.rs`. -/
def parse_data_items (bytes : List Nat) : Nat → ModuleSt → Nat → Except Error (ModuleSt × Nat)
  | 0, st, idx => .ok (st, idx)
  | n + 1, st, idx => do
    if iterEmpty bytes idx then throw (.malformed UNEXPECTED_END)
    let (segment_flag, i1) ← safe_read_leb128 bytes idx 32
    if segment_flag ≠ 0 then throw (.validation INVALID_DATA_SEG_FLAG)
    if st.memory.isNone then throw (.validation UNKNOWN_MEMORY)
    let initializer_offset := i1
    let i2 ← validate_const bytes i1 .i32 st.globals
    let (data_length, i3) ← safe_read_leb128 bytes i2 32
    if ¬ has_n_left bytes i3 data_length then throw (.malformed UNEXPECTED_END)
    let seg : DataSegM := ⟨i3, i3 + data_length, initializer_offset⟩
    parse_data_items bytes n { st with data_segments := st.data_segments ++ [seg] } (i3 + data_length)

/-- Section reader `parse_data_section`, from `src/module.rs`. -/
def parse_data_section (bytes : List Nat) (st : ModuleSt) (idx : Nat) :
    Except Error (ModuleSt × Nat) := do
  let (n_data_segments, i1) ← safe_read_leb128 bytes idx 32
  parse_data_items bytes n_data_segments st i1

/-- Little-endian u32 read at a byte offset, used for the version
field. -/
def leU32At (bytes : List Nat) (i : Nat) : Nat :=
  (bytes.get? i).getD 0 + (bytes.get? (i + 1)).getD 0 * 256 +
    (bytes.get? (i + 2)).getD 0 * 65536 + (bytes.get? (i + 3)).getD 0 * 16777216

/-- Top-level decode `Module::compile` / `Module::initialize`, from
`src/module.rs`: header checks, the eleven standard-section calls in
ascending id order, and the final junk check.  The function-body
validator invoked by the code section is supplied as a parameter (see
`parse_code_items`). -/
def compileModule (validate : ModuleSt → Nat → Except Error Unit) (bytes : List Nat) :
    Except Error ModuleSt := do
  if bytes.length < 4 then throw (.malformed UNEXPECTED_END)
  if bytes.take 4 ≠ MAGIC_HEADER then throw (.malformed NO_MAGIC_HEADER)
  if bytes.length < 8 then throw (.malformed UNEXPECTED_END)
  if leU32At bytes 4 ≠ 1 then throw (.malformed UNKNOWN_BINARY_VERSION)
  let st := ModuleSt.empty
  let (st, idx) ← sectionRead bytes 1 (parse_type_section bytes) st 8
  let (st, idx) ← sectionRead bytes 2 (parse_import_section bytes) st idx
  let (st, idx) ← sectionRead bytes 3 (parse_function_section bytes) st idx
  let (st, idx) ← sectionRead bytes 4 (parse_table_section bytes) st idx
  let (st, idx) ← sectionRead bytes 5 (parse_memory_section bytes) st idx
  let (st, idx) ← sectionRead bytes 6 (parse_global_section bytes) st idx
  let (st, idx) ← sectionRead bytes 7 (parse_export_section bytes) st idx
  let (st, idx) ← sectionRead bytes 8 (parse_start_section bytes) st idx
  let (st, idx) ← sectionRead bytes 9 (parse_element_section bytes) st idx
  let (st, idx) ← sectionRead bytes 10 (parse_code_section validate bytes) st idx
  let (st, idx) ← sectionRead bytes 11 (parse_data_section bytes) st idx
  if ¬ iterEmpty bytes idx then throw (.malformed JUNK_AFTER_LAST)
  pure st

/-- Trivial instantiation of the abstract function-body validator,
used to run the decoder on concrete inputs that contain no code
section (the validator is then never invoked). -/
def trivialValidate : ModuleSt → Nat → Except Error Unit := fun _ _ => .ok ()

/-- Return-sentinel control frame pushed by `invoke`'s frame setup:
entry height 0 (the arguments start the stack), return pc 0, arity 1
exactly when the signature has a result. -/
def invokeSentinel (hr : Bool) : ControlFrame :=
  ⟨0, 0, if hr then 1 else 0, hr⟩

/-- Hypothesis on the abstracted interpreter loop: no interior run
produces the arity trap (in the source, `invalid number of arguments`
is emitted only by `Instance::invoke` itself). -/
def noArityTrapInterp (interp : InterpFn) : Prop :=
  ∀ pc st, (interp pc st).2 ≠ .error (.trap INVALID_NUM_ARG)

/-- Hypothesis on an imported function's owner: dispatching into the
owner never produces the arity trap. -/
def noArityTrapOwner : RuntimeFunction → Prop
  | .importedWasm _ (some ow) _ =>
    ∀ i rp st, (ow.callIdx i rp st).2 ≠ .error (.trap INVALID_NUM_ARG)
  | _ => True

/-- Concrete module bytes: header followed by a type section (id 1)
appearing twice — a repeated standard section id. -/
def c4_bytes_repeated : List Nat := [0x00, 0x61, 0x73, 0x6d, 1, 0, 0, 0, 1, 1, 0, 1, 1, 0]

/-- Concrete module bytes: an import section (id 2) followed by a
type section (id 1) — standard section ids out of ascending order. -/
def c4_bytes_out_of_order : List Nat := [0x00, 0x61, 0x73, 0x6d, 1, 0, 0, 0, 2, 1, 0, 1, 1, 0]

/-- Concrete module bytes: a single section id 12 (greater than 11)
at the head of the section stream. -/
def c4_bytes_id12 : List Nat := [0x00, 0x61, 0x73, 0x6d, 1, 0, 0, 0, 12]

/-- Concrete module bytes: a data section (id 11) followed by the
byte 12 — an id greater than 11 positioned after the last
standard-section read. -/
def c4_bytes_late12 : List Nat := [0x00, 0x61, 0x73, 0x6d, 1, 0, 0, 0, 11, 1, 0, 12]

-- ----------------------------------------------------------------
-- Theorems
-- ----------------------------------------------------------------

theorem two32_eq : two32 = 2 ^ 32 := by norm_num [two32]

theorem two64_eq : two64 = 2 ^ 64 := by norm_num [two64]

theorem as_i32_from_i32 (v : Int) (h1 : -(2 ^ 31) ≤ v) (h2 : v < 2 ^ 31) :
    (WasmValue.from_i32 v).as_i32 = v := by
  simp only [WasmValue.from_i32, WasmValue.as_i32, toSigned, two32]
  split_ifs with h <;> omega

theorem from_i32_val_lt (v : Int) : (WasmValue.from_i32 v).val < two32 := by
  simp only [WasmValue.from_i32, two32]
  omega

theorem as_u32_from_u32 (x : Nat) (h : x < two32) :
    (WasmValue.from_u32 x).as_u32 = x := by
  simp only [WasmValue.from_u32, WasmValue.as_u32, two32] at *
  omega

theorem as_i64_from_i64 (v : Int) (h1 : -(2 ^ 63) ≤ v) (h2 : v < 2 ^ 63) :
    (WasmValue.from_i64 v).as_i64 = v := by
  simp only [WasmValue.from_i64, WasmValue.as_i64, toSigned, two64]
  split_ifs with h <;> omega

theorem as_u64_from_u64 (x : Nat) (h : x < two64) :
    (WasmValue.from_u64 x).as_u64 = x := by
  simp only [WasmValue.from_u64, WasmValue.as_u64, two64] at *
  omega

theorem funcRefNew_eq (owner idx : Nat) (h1 : 1 ≤ owner) (h2 : owner < two32)
    (h3 : idx < U32_MAX) :
    FuncRef.new owner idx = owner * two32 + (idx + 1) := by
  have ho : owner % two32 = owner := Nat.mod_eq_of_lt h2
  have hi : idx % two32 = idx := Nat.mod_eq_of_lt (by simp only [U32_MAX, two32] at *; omega)
  unfold FuncRef.new
  rw [if_neg]
  · rw [ho, hi, Nat.shiftLeft_eq]
    have hb : idx + 1 < 2 ^ 32 := by simp only [U32_MAX] at h3; omega
    calc owner * 2 ^ 32 ||| (idx + 1) = 2 ^ 32 * owner ||| (idx + 1) := by ring_nf
    _ = 2 ^ 32 * owner + (idx + 1) := (Nat.mul_add_lt_is_or hb owner).symm
    _ = owner * two32 + (idx + 1) := by rw [two32_eq]; ring
  · push_neg
    constructor
    · rw [ho]; omega
    · rw [hi]; simp only [U32_MAX] at *; omega

theorem handleOwner_decode (owner idx : Nat) (h2 : owner < two32) (hb : idx + 1 < two32) :
    handleOwner (owner * two32 + (idx + 1)) = owner := by
  simp only [handleOwner, Nat.shiftRight_eq_div_pow, ← two32_eq]
  have : (owner * two32 + (idx + 1)) / two32 = owner := by
    rw [Nat.mul_comm, Nat.mul_add_div (by norm_num [two32])]
    have : (idx + 1) / two32 = 0 := Nat.div_eq_of_lt hb
    omega
  rw [this, Nat.mod_eq_of_lt h2]

theorem handleLow_decode (owner idx : Nat) (hb : idx + 1 < two32) :
    handleLow (owner * two32 + (idx + 1)) = idx + 1 := by
  have hmask : (0xFFFFFFFF : Nat) = 2 ^ 32 - 1 := by norm_num
  rw [handleLow, hmask, Nat.and_pow_two_sub_one_eq_mod, two32_eq]
  rw [two32_eq] at hb
  omega

/-- C9: the 64-bit value cell round-trips every payload exactly: an
i32 is zero-extended (upper 32 bits zero) and recovered by `as_i32`;
f32 and f64 bit patterns (NaN included) are stored and recovered
bit-exactly. -/
theorem c9_value_roundtrip (v : Int) (b c : Nat)
    (h1 : -(2 ^ 31) ≤ v) (h2 : v < 2 ^ 31) (hb : b < two32) (hc : c < two64) :
    (WasmValue.from_i32 v).as_i32 = v ∧
    (WasmValue.from_i32 v).val < two32 ∧
    (WasmValue.from_f32_bits b).as_f32_bits = b ∧
    (WasmValue.from_f64_bits c).as_f64_bits = c := by
  refine ⟨as_i32_from_i32 v h1 h2, from_i32_val_lt v, ?_, ?_⟩
  · simp only [WasmValue.from_f32_bits, WasmValue.as_f32_bits, two32] at *
    omega
  · simp only [WasmValue.from_f64_bits, WasmValue.as_f64_bits, two64] at *
    omega

/-- C9 witness at `v = -5`, `b = 0x7fc00001` (a NaN pattern),
`c = 2^64 - 1`. -/
theorem c9_witness :
    (WasmValue.from_i32 (-5)).as_i32 = -5 ∧
    (WasmValue.from_i32 (-5)).val < two32 ∧
    (WasmValue.from_f32_bits 0x7fc00001).as_f32_bits = 0x7fc00001 ∧
    (WasmValue.from_f64_bits (two64 - 1)).as_f64_bits = two64 - 1 :=
  c9_value_roundtrip (-5) 0x7fc00001 (two64 - 1) (by norm_num) (by norm_num)
    (by norm_num [two32]) (by norm_num [two64])

/-- C5: `WasmMemory::grow(0)` returns the current page count with the
memory unchanged; a delta exceeding `maximum - current` returns
`u32::MAX` with the memory unchanged; otherwise the previous count is
returned, `current` increases by `delta`, and the buffer is extended
with zeros to exactly `(current + delta) * 65536` bytes. -/
theorem c5_memory_grow (m : WasmMemory) (delta : Nat)
    (hwf : m.data.length = m.current * PAGE_SIZE) :
    m.grow 0 = (m.current, m) ∧
    (0 < delta → m.maximum - m.current < delta → m.grow delta = (U32_MAX, m)) ∧
    (0 < delta → delta ≤ m.maximum - m.current →
      (m.grow delta).1 = m.current ∧
      (m.grow delta).2.current = m.current + delta ∧
      (m.grow delta).2.maximum = m.maximum ∧
      (m.grow delta).2.data =
        m.data ++ List.replicate ((m.current + delta) * PAGE_SIZE - m.data.length) 0 ∧
      (m.grow delta).2.data.length = (m.current + delta) * PAGE_SIZE) := by
  refine ⟨by simp [WasmMemory.grow], ?_, ?_⟩
  · intro h0 hover
    unfold WasmMemory.grow
    rw [if_neg (by omega), if_pos (by omega)]
  · intro h0 hfits
    have hlt : m.data.length < (m.current + delta) * PAGE_SIZE := by
      rw [hwf]
      exact (Nat.mul_lt_mul_right (by norm_num [PAGE_SIZE])).mpr (by omega)
    unfold WasmMemory.grow
    rw [if_neg (by omega), if_neg (by omega)]
    refine ⟨rfl, rfl, rfl, ?_, ?_⟩
    · simp only [listResize]
      rw [if_neg (by omega)]
    · simp only [listResize]
      rw [if_neg (by omega), List.length_append, List.length_replicate]
      omega

/-- C5 witness on a zero-page memory with max 2: growing by 0 and by
an over-max 3 leaves it unchanged, growing by 1 reaches one page. -/
theorem c5_witness :
    (WasmMemory.new 0 2).grow 0 = ((WasmMemory.new 0 2).current, WasmMemory.new 0 2) ∧
    (WasmMemory.new 0 2).grow 3 = (U32_MAX, WasmMemory.new 0 2) ∧
    ((WasmMemory.new 0 2).grow 1).2.current = (WasmMemory.new 0 2).current + 1 := by
  have hwf : (WasmMemory.new 0 2).data.length = (WasmMemory.new 0 2).current * PAGE_SIZE := by
    simp only [WasmMemory.new, List.length_replicate]
  have h3 := c5_memory_grow (WasmMemory.new 0 2) 3 hwf
  have h1 := c5_memory_grow (WasmMemory.new 0 2) 1 hwf
  refine ⟨h3.1, h3.2.1 (by norm_num) ?_, (h1.2.2 (by norm_num) ?_).2.1⟩
  · show (2 : Nat) - 0 < 3
    norm_num
  · show (1 : Nat) ≤ 2 - 0
    norm_num

/-- C10: `dec_ref` never underflows: a missing or zero refcount
leaves the whole manager unchanged; a positive refcount `c + 1` is
decremented to `c`, and the zombie holdover for the id is removed
exactly when the new count is zero, with the registry and the id
allocator untouched. -/
theorem c10_decref_no_underflow (m : InstanceManager) (id c : Nat) :
    (alistFind m.refcounts id = none → m.dec_ref id = m) ∧
    (alistFind m.refcounts id = some 0 → m.dec_ref id = m) ∧
    (alistFind m.refcounts id = some (c + 1) →
      (m.dec_ref id).refcounts = alistInsert m.refcounts id c ∧
      (m.dec_ref id).zombie_instances =
        (if c = 0 then alistErase m.zombie_instances id else m.zombie_instances) ∧
      (m.dec_ref id).registry = m.registry ∧
      (m.dec_ref id).next_id = m.next_id) := by
  refine ⟨?_, ?_, ?_⟩ <;> intro h <;> simp [InstanceManager.dec_ref, h]

/-- C10 witness on a manager with refcount bindings for ids 1 (count
0), 2 (count 1, with a zombie) and a missing id 3. -/
theorem c10_witness :
    (InstanceManager.dec_ref ⟨[], [(1, 0)], 4, []⟩ 1 = ⟨[], [(1, 0)], 4, []⟩) ∧
    (InstanceManager.dec_ref ⟨[], [(1, 0)], 4, []⟩ 3 = ⟨[], [(1, 0)], 4, []⟩) ∧
    ((InstanceManager.dec_ref ⟨[], [(2, 1)], 4, [(2, ⟨2, []⟩)]⟩ 2).refcounts = [(2, 0)] ∧
      (InstanceManager.dec_ref ⟨[], [(2, 1)], 4, [(2, ⟨2, []⟩)]⟩ 2).zombie_instances = []) := by
  refine ⟨?_, ?_, ?_, ?_⟩
  · exact (c10_decref_no_underflow ⟨[], [(1, 0)], 4, []⟩ 1 0).2.1 (by rfl)
  · exact (c10_decref_no_underflow ⟨[], [(1, 0)], 4, []⟩ 3 0).1 (by rfl)
  · exact ((c10_decref_no_underflow ⟨[], [(2, 1)], 4, [(2, ⟨2, []⟩)]⟩ 2 0).2.2 (by rfl)).1
  · have := ((c10_decref_no_underflow ⟨[], [(2, 1)], 4, [(2, ⟨2, []⟩)]⟩ 2 0).2.2 (by rfl)).2.1
    rw [this]
    rfl

/-- C3: a trap from the start function is reclassified as
`Uninstantiable` with the same message, after promoting the instance
to a zombie holdover; `add_zombie` inserts exactly when the refcount
is positive and touches nothing else; a non-trap error and success
propagate with the manager unchanged. -/
theorem c3_start_trap_uninstantiable (mgr : InstanceManager) (inst : InstModel)
    (msg : String) (e : Error) (he : ∀ s, e ≠ .trap s) :
    startCall mgr inst (.error (.trap msg)) =
      (mgr.add_zombie inst, .error (.uninstantiable msg)) ∧
    ((mgr.add_zombie inst).zombie_instances =
      if 0 < (alistFind mgr.refcounts inst.id).getD 0 then
        alistInsert mgr.zombie_instances inst.id inst
      else mgr.zombie_instances) ∧
    (mgr.add_zombie inst).registry = mgr.registry ∧
    (mgr.add_zombie inst).refcounts = mgr.refcounts ∧
    (mgr.add_zombie inst).next_id = mgr.next_id ∧
    startCall mgr inst (.error e) = (mgr, .error e) ∧
    startCall mgr inst (.ok ()) = (mgr, .ok ()) := by
  have hz : ∀ p : InstanceManager, True := fun _ => trivial
  refine ⟨rfl, ?_, ?_, ?_, ?_, ?_, rfl⟩
  · simp only [InstanceManager.add_zombie, InstanceManager.has_refs]
    split_ifs with h1 h2 h2 <;> simp_all
  · simp only [InstanceManager.add_zombie]; split_ifs <;> rfl
  · simp only [InstanceManager.add_zombie]; split_ifs <;> rfl
  · simp only [InstanceManager.add_zombie]; split_ifs <;> rfl
  · cases e with
    | trap s => exact absurd rfl (he s)
    | malformed s => rfl
    | validation s => rfl
    | link s => rfl
    | uninstantiable s => rfl

/-- C3 witness: a refcounted instance (id 7, refcount 1) whose start
traps with "unreachable", and a link error propagating unchanged. -/
theorem c3_witness :
    startCall ⟨[], [(7, 1)], 8, []⟩ ⟨7, []⟩ (.error (.trap "unreachable")) =
      (⟨[], [(7, 1)], 8, [(7, ⟨7, []⟩)]⟩, .error (.uninstantiable "unreachable")) ∧
    startCall ⟨[], [(7, 1)], 8, []⟩ ⟨7, []⟩ (.error (.link "unknown import")) =
      (⟨[], [(7, 1)], 8, []⟩, .error (.link "unknown import")) := by
  have h := c3_start_trap_uninstantiable ⟨[], [(7, 1)], 8, []⟩ ⟨7, []⟩ "unreachable"
    (.link "unknown import") (fun s => by simp)
  refine ⟨?_, h.2.2.2.2.2.1⟩
  rw [h.1]
  rfl

/-- C6: for owner ids at least 1 and function indices below
`u32::MAX`, the constructed handle `(owner_id << 32) | (fn_index + 1)`
is non-zero and decodes back to exactly `(owner_id, fn_index)` by
taking the high 32 bits and subtracting one from the low 32 bits; the
low half is never zero, so no constructed handle collides with the
null handle 0. -/
theorem c6_funcref_roundtrip (owner idx : Nat) (h1 : 1 ≤ owner) (h2 : owner < two32)
    (h3 : idx < U32_MAX) :
    FuncRef.new owner idx ≠ 0 ∧
    handleOwner (FuncRef.new owner idx) = owner ∧
    handleLow (FuncRef.new owner idx) = idx + 1 ∧
    handleLow (FuncRef.new owner idx) ≠ 0 ∧
    handleLow (FuncRef.new owner idx) - 1 = idx := by
  have hb : idx + 1 < two32 := by simp only [U32_MAX, two32] at *; omega
  have he := funcRefNew_eq owner idx h1 h2 h3
  rw [he]
  refine ⟨by simp only [two32]; omega, handleOwner_decode owner idx h2 hb,
    handleLow_decode owner idx hb, ?_, ?_⟩
  · rw [handleLow_decode owner idx hb]; omega
  · rw [handleLow_decode owner idx hb]; omega

/-- C6 witness at owner 3, index 0: handle `3 * 2^32 + 1`. -/
theorem c6_witness :
    FuncRef.new 3 0 ≠ 0 ∧ handleOwner (FuncRef.new 3 0) = 3 ∧
    handleLow (FuncRef.new 3 0) - 1 = 0 :=
  have h := c6_funcref_roundtrip 3 0 (by norm_num) (by norm_num [two32]) (by norm_num [U32_MAX])
  ⟨h.1, h.2.1, h.2.2.2.2⟩

/-- C2: for i32 and i64 operands, `div_s` traps exactly on a zero
divisor (`integer divide by zero`) and on `INT_MIN / -1` (`integer
overflow`); `div_u` and `rem_u` trap exactly on a zero divisor;
`rem_s` traps exactly on a zero divisor and returns 0 for
`INT_MIN rem -1`; every non-trapping case yields the exact truncated
quotient or remainder. -/
theorem c2_div_rem_semantics (a b c d : Int) (x y u v : Nat)
    (ha1 : -(2 ^ 31) ≤ a) (ha2 : a < 2 ^ 31) (hb1 : -(2 ^ 31) ≤ b) (hb2 : b < 2 ^ 31)
    (hc1 : -(2 ^ 63) ≤ c) (hc2 : c < 2 ^ 63) (hd1 : -(2 ^ 63) ≤ d) (hd2 : d < 2 ^ 63)
    (hx : x < two32) (hy : y < two32) (hu : u < two64) (hv : v < two64) :
    (i32_div_s (.from_i32 a) (.from_i32 b) =
      if b = 0 then .error (.trap DIVIDE_BY_ZERO)
      else if a = I32_MIN ∧ b = -1 then .error (.trap INTEGER_OVERFLOW)
      else .ok (.from_i32 (Int.tdiv a b))) ∧
    (i32_rem_s (.from_i32 a) (.from_i32 b) =
      if b = 0 then .error (.trap DIVIDE_BY_ZERO)
      else if a = I32_MIN ∧ b = -1 then .ok (.from_i32 0)
      else .ok (.from_i32 (Int.tmod a b))) ∧
    (i32_div_u (.from_u32 x) (.from_u32 y) =
      if y = 0 then .error (.trap DIVIDE_BY_ZERO)
      else .ok (.from_u32 (x / y))) ∧
    (i32_rem_u (.from_u32 x) (.from_u32 y) =
      if y = 0 then .error (.trap DIVIDE_BY_ZERO)
      else .ok (.from_u32 (x % y))) ∧
    (i64_div_s (.from_i64 c) (.from_i64 d) =
      if d = 0 then .error (.trap DIVIDE_BY_ZERO)
      else if c = I64_MIN ∧ d = -1 then .error (.trap INTEGER_OVERFLOW)
      else .ok (.from_i64 (Int.tdiv c d))) ∧
    (i64_rem_s (.from_i64 c) (.from_i64 d) =
      if d = 0 then .error (.trap DIVIDE_BY_ZERO)
      else if c = I64_MIN ∧ d = -1 then .ok (.from_i64 0)
      else .ok (.from_i64 (Int.tmod c d))) ∧
    (i64_div_u (.from_u64 u) (.from_u64 v) =
      if v = 0 then .error (.trap DIVIDE_BY_ZERO)
      else .ok (.from_u64 (u / v))) ∧
    (i64_rem_u (.from_u64 u) (.from_u64 v) =
      if v = 0 then .error (.trap DIVIDE_BY_ZERO)
      else .ok (.from_u64 (u % v))) := by
  refine ⟨?_, ?_, ?_, ?_, ?_, ?_, ?_, ?_⟩
  · simp only [i32_div_s, as_i32_from_i32 a ha1 ha2, as_i32_from_i32 b hb1 hb2]
  · simp only [i32_rem_s, as_i32_from_i32 a ha1 ha2, as_i32_from_i32 b hb1 hb2]
  · simp only [i32_div_u, as_u32_from_u32 x hx, as_u32_from_u32 y hy]
  · simp only [i32_rem_u, as_u32_from_u32 x hx, as_u32_from_u32 y hy]
  · simp only [i64_div_s, as_i64_from_i64 c hc1 hc2, as_i64_from_i64 d hd1 hd2]
  · simp only [i64_rem_s, as_i64_from_i64 c hc1 hc2, as_i64_from_i64 d hd1 hd2]
  · simp only [i64_div_u, as_u64_from_u64 u hu, as_u64_from_u64 v hv]
  · simp only [i64_rem_u, as_u64_from_u64 u hu, as_u64_from_u64 v hv]

/-- C2 witness at the boundary operands: `i32` INT_MIN / -1 traps
with integer overflow, INT_MIN rem -1 is 0, division by zero traps,
and 7 / -2 truncates to -3. -/
theorem c2_witness :
    i32_div_s (.from_i32 I32_MIN) (.from_i32 (-1)) = .error (.trap INTEGER_OVERFLOW) ∧
    i32_rem_s (.from_i32 I32_MIN) (.from_i32 (-1)) = .ok (.from_i32 0) ∧
    i32_div_u (.from_u32 5) (.from_u32 0) = .error (.trap DIVIDE_BY_ZERO) ∧
    i32_div_s (.from_i32 7) (.from_i32 (-2)) = .ok (.from_i32 (-3)) := by
  have h := c2_div_rem_semantics I32_MIN (-1) 0 1 5 0 0 1
    (by norm_num [I32_MIN]) (by norm_num [I32_MIN]) (by norm_num) (by norm_num)
    (by norm_num) (by norm_num) (by norm_num) (by norm_num)
    (by norm_num [two32]) (by norm_num [two32]) (by norm_num [two64]) (by norm_num [two64])
  have h2 := c2_div_rem_semantics 7 (-2) 0 1 5 0 0 1
    (by norm_num) (by norm_num) (by norm_num) (by norm_num)
    (by norm_num) (by norm_num) (by norm_num) (by norm_num)
    (by norm_num [two32]) (by norm_num [two32]) (by norm_num [two64]) (by norm_num [two64])
  refine ⟨?_, ?_, ?_, ?_⟩
  · rw [h.1]
    norm_num [I32_MIN]
  · rw [h.2.1]
    norm_num [I32_MIN]
  · rw [h.2.2.1]
    norm_num
  · rw [h2.1]
    norm_num [I32_MIN]
    decide

/-- C1 counterexample: with an empty registry (no zombie, no weak
handle), a cross-instance `call_indirect` whose decoded owner id (2)
is not the current instance traps with `indirect call type mismatch`,
not with `function has no implementation` as the claim states: the
`sig_ok` flag stays false when the owner is missing and the mismatch
check fires first. -/
theorem c1_counterexample :
    callIndirectCross ⟨[], [], 1, []⟩ 2 0 0 [] =
      some (.error (.trap INDIRECT_CALL_MISMATCH)) ∧
    Error.trap INDIRECT_CALL_MISMATCH ≠ Error.trap FUNC_NO_IMPL := by
  refine ⟨rfl, by decide⟩

/-- C1 (amended): in the cross-instance branch of `call_indirect`, a
missing owner and a signature mismatch both trap with `indirect call
type mismatch`; `function has no implementation` is produced exactly
when the owner is found, the signature matches, and the dispatched
call itself fails (whose own error is swallowed); a successful
dispatch pushes the callee's final sub-stack. -/
theorem c1_cross_instance_dispatch (mgr : InstanceManager)
    (owner_id func_idx expected : Nat) (stack : List WasmValue) :
    (mgr.get_instance owner_id = none →
      callIndirectCross mgr owner_id func_idx expected stack =
        some (.error (.trap INDIRECT_CALL_MISMATCH))) ∧
    (∀ owner callee, mgr.get_instance owner_id = some owner →
      owner.functions.get? func_idx = some callee →
      callee.sig ≠ expected →
      callIndirectCross mgr owner_id func_idx expected stack =
        some (.error (.trap INDIRECT_CALL_MISMATCH))) ∧
    (∀ owner callee err, mgr.get_instance owner_id = some owner →
      owner.functions.get? func_idx = some callee →
      callee.sig = expected →
      rsigNParams callee.sig ≤ stack.length →
      callee.call ((stack.take (rsigNParams callee.sig)).reverse) = .error err →
      callIndirectCross mgr owner_id func_idx expected stack =
        some (.error (.trap FUNC_NO_IMPL))) ∧
    (∀ owner callee res, mgr.get_instance owner_id = some owner →
      owner.functions.get? func_idx = some callee →
      callee.sig = expected →
      rsigNParams callee.sig ≤ stack.length →
      callee.call ((stack.take (rsigNParams callee.sig)).reverse) = .ok res →
      callIndirectCross mgr owner_id func_idx expected stack =
        some (.ok (res.reverse ++ stack.drop (rsigNParams callee.sig)))) := by
  refine ⟨?_, ?_, ?_, ?_⟩
  · intro h
    simp [callIndirectCross, h]
  · intro owner callee h1 h2 h3
    rw [List.get?_eq_getElem?] at h2
    simp [callIndirectCross, h1, h2, h3]
  · intro owner callee err h1 h2 h3 h4 h5
    rw [List.get?_eq_getElem?] at h2
    subst h3
    simp [callIndirectCross, h1, h2, h4, h5]
  · intro owner callee res h1 h2 h3 h4 h5
    rw [List.get?_eq_getElem?] at h2
    subst h3
    simp [callIndirectCross, h1, h2, h4, h5]

/-- C1 witness: a registry holding instance 2 with one function of
packed signature 5; a matching expected signature dispatches (clause
4), a different expected signature (6) traps with the mismatch
message (clause 2), and the missing owner 9 also traps with the
mismatch message (clause 1). -/
theorem c1_witness :
    callIndirectCross
        ⟨[(2, some ⟨2, [⟨1, fun s => .ok s⟩]⟩)], [], 3, []⟩ 9 0 1 [] =
      some (.error (.trap INDIRECT_CALL_MISMATCH)) ∧
    callIndirectCross
        ⟨[(2, some ⟨2, [⟨1, fun s => .ok s⟩]⟩)], [], 3, []⟩ 2 0 6 [] =
      some (.error (.trap INDIRECT_CALL_MISMATCH)) ∧
    callIndirectCross
        ⟨[(2, some ⟨2, [⟨1, fun s => .ok s⟩]⟩)], [], 3, []⟩ 2 0 1 [⟨1⟩] =
      some (.ok [⟨1⟩]) := by
  refine ⟨?_, ?_, ?_⟩
  · exact (c1_cross_instance_dispatch _ 9 0 1 []).1 rfl
  · exact (c1_cross_instance_dispatch _ 2 0 6 []).2.1 ⟨2, [⟨1, fun s => .ok s⟩]⟩
      ⟨1, fun s => .ok s⟩ rfl rfl (by decide)
  · have := (c1_cross_instance_dispatch
      ⟨[(2, some ⟨2, [⟨1, fun s => .ok s⟩]⟩)], [], 3, []⟩ 2 0 1 [⟨1⟩]).2.2.2
      ⟨2, [⟨1, fun s => .ok s⟩]⟩ ⟨1, fun s => .ok s⟩ [⟨1⟩] rfl rfl rfl
      (by show rsigNParams 1 ≤ 1; decide) rfl
    simpa using this

/-- C7 counterexample: at a control-stack depth of exactly 1000,
entering a `block` pushes an unchecked control frame: the depth
becomes 1001 and execution continues at the body pc — no trap is
possible on this path (the handler's type has no error outcome), so
the control-frame depth is not capped at 1000 during execution. -/
theorem c7_counterexample :
    (execBlockEntry (9, 20, 20, 0, false) [] (List.replicate 1000 ⟨0, 0, 0, false⟩)).2.length
        = 1001 ∧
    (execBlockEntry (9, 20, 20, 0, false) [] (List.replicate 1000 ⟨0, 0, 0, false⟩)).1 = 9 := by
  constructor
  · simp only [execBlockEntry, List.length_cons, List.length_replicate]
  · rfl

/-- C7 (amended): the call-depth cap is enforced by
`call_function_idx` (call paths through it trap with `call stack
exhausted` before entering the callee), and the control cap is
enforced only at function-call setup, after pushing the return
sentinel; a successful setup keeps the control depth at most 1000 and
— assuming the base-count invariant `func_bases ≤ control` — the call
depth at most 1000; block entry, by contrast, pushes a control frame
unconditionally, so nested blocks can drive the control depth past
1000 without any trap. -/
theorem c7_depth_guards (interp : InterpFn) (f : RuntimeFunction) (return_pc : Nat)
    (st : MachSt) (sig pc_start locals_count return_dest : Nat)
    (stack : List WasmValue) (control : List ControlFrame) (fb cb : List Nat)
    (entry : Nat × Nat × Nat × Nat × Bool) :
    (st.func_bases.length ≥ MAX_CALL_DEPTH →
      call_function_idx interp f return_pc st = (st, .error (.trap STACK_EXHAUSTED))) ∧
    (control.length ≥ MAX_CONTROL_DEPTH →
      (setup_wasm_function_call sig pc_start locals_count stack control fb cb return_dest).2 =
        .error (.trap STACK_EXHAUSTED)) ∧
    (∀ st' pc,
      setup_wasm_function_call sig pc_start locals_count stack control fb cb return_dest =
        (st', .ok pc) →
      st'.control.length ≤ MAX_CONTROL_DEPTH ∧
      st'.control.length = control.length + 1 ∧
      st'.func_bases.length = fb.length + 1 ∧
      (fb.length ≤ control.length → st'.func_bases.length ≤ MAX_CALL_DEPTH)) ∧
    (execBlockEntry entry stack control).2.length = control.length + 1 := by
  refine ⟨?_, ?_, ?_, ?_⟩
  · intro h
    unfold call_function_idx
    rw [if_pos h]
  · intro h
    unfold setup_wasm_function_call
    rw [if_pos (by simp only [List.length_cons, MAX_CONTROL_DEPTH] at *; omega)]
  · intro st' pc h
    simp only [setup_wasm_function_call, List.length_cons, gt_iff_lt] at h
    by_cases hc : MAX_CONTROL_DEPTH < control.length + 1
    · rw [if_pos hc] at h
      exact absurd (congrArg Prod.snd h) (by simp)
    · rw [if_neg hc] at h
      rw [Prod.mk.injEq] at h
      obtain ⟨hst, hpc⟩ := h
      subst hst
      simp only [List.length_cons, MAX_CONTROL_DEPTH, MAX_CALL_DEPTH] at hc ⊢
      exact ⟨by omega, trivial, trivial, fun hinv => by omega⟩
  · obtain ⟨a, b, c, d, e⟩ := entry
    simp [execBlockEntry]

/-- C8: `invoke` returns `Trap("invalid number of arguments")` exactly
when the argument count differs from the declared parameter count
(given that no interior run emits that message, which holds of the
interpreter); with matching arity an owned-wasm callee runs from the
seeded stack under a single return sentinel of entry height 0, and
completion through that sentinel leaves exactly 1 value on the stack
when the signature has a result and exactly 0 otherwise. -/
theorem c8_invoke_contract (interp : InterpFn) (f : RuntimeFunction) (args : List WasmValue)
    (hi : noArityTrapInterp interp) (hf : noArityTrapOwner f) :
    (invoke interp f args = .error (.trap INVALID_NUM_ARG) ↔ f.param_count ≠ args.length) ∧
    (∀ sig pc_start locals_count, f = .ownedWasm sig pc_start locals_count →
      args.length = rsigNParams sig →
      invoke interp f args =
        (match interp pc_start ⟨List.replicate locals_count ⟨0⟩ ++ args.reverse,
            [invokeSentinel (rsigHasResult sig)], [0], [0]⟩ with
         | (st', .ok ()) => .ok st'.stack
         | (_, .error e) => .error e)) ∧
    (∀ pc (s : List WasmValue), 1 ≤ s.length →
      (branchStep pc s [invokeSentinel true] 0).2.1.length = 1 ∧
      (branchStep pc s [invokeSentinel true] 0).2.2.2 = true) ∧
    (∀ pc (s : List WasmValue),
      (branchStep pc s [invokeSentinel false] 0).2.1.length = 0 ∧
      (branchStep pc s [invokeSentinel false] 0).2.2.2 = true) := by
  have hmain : ∀ sig pc_start locals_count, f = .ownedWasm sig pc_start locals_count →
      args.length = rsigNParams sig →
      invoke interp f args =
        (match interp pc_start ⟨List.replicate locals_count ⟨0⟩ ++ args.reverse,
            [invokeSentinel (rsigHasResult sig)], [0], [0]⟩ with
         | (st', .ok ()) => .ok st'.stack
         | (_, .error e) => .error e) := by
    intro sig pcs lc hfeq hlen
    subst hfeq
    simp only [invoke, RuntimeFunction.param_count, RuntimeFunction.signature]
    rw [if_neg (by omega)]
    simp only [setup_wasm_function_call, List.length_cons, List.length_nil, gt_iff_lt,
      List.length_reverse, Nat.add_sub_cancel]
    rw [if_neg (by norm_num [MAX_CONTROL_DEPTH])]
    rw [← hlen, Nat.sub_self]
    rfl
  refine ⟨⟨?_, ?_⟩, hmain, ?_, ?_⟩
  · -- forward direction of the arity iff
    intro h
    by_contra hne
    cases f with
    | ownedWasm sig pcs lc =>
      simp only [RuntimeFunction.param_count, RuntimeFunction.signature] at hne
      rw [hmain sig pcs lc rfl hne.symm] at h
      rcases hrun : interp pcs ⟨List.replicate lc ⟨0⟩ ++ args.reverse,
          [invokeSentinel (rsigHasResult sig)], [0], [0]⟩ with ⟨st2, r2⟩
      rw [hrun] at h
      have hne2 := hi pcs ⟨List.replicate lc ⟨0⟩ ++ args.reverse,
        [invokeSentinel (rsigHasResult sig)], [0], [0]⟩
      rw [hrun] at hne2
      cases r2 with
      | ok u => cases u; exact Except.noConfusion h
      | error e2 =>
        dsimp only at h hne2
        exact hne2 (by rw [Except.error.inj h])
    | importedWasm sig owner fidx =>
      simp only [invoke] at h
      rw [if_neg (fun hx => hx hne)] at h
      cases owner with
      | none => exact absurd (Error.trap.inj (Except.error.inj h)) (by decide)
      | some ow =>
        dsimp only at h
        rcases hrun : ow.callIdx fidx 0 ⟨args.reverse, [], [], []⟩ with ⟨st2, r2⟩
        rw [hrun] at h
        have hne2 := hf fidx 0 ⟨args.reverse, [], [], []⟩
        rw [hrun] at hne2
        cases r2 with
        | ok u => cases u; exact Except.noConfusion h
        | error e2 =>
          dsimp only at h hne2
          exact hne2 (by rw [Except.error.inj h])
    | host sig cb =>
      simp only [invoke] at h
      rw [if_neg (fun hx => hx hne)] at h
      rcases hcb : cb args with _ | r <;> rw [hcb] at h <;> exact Except.noConfusion h
  · -- backward direction of the arity iff
    intro h
    simp only [invoke]
    rw [if_pos h]
  · -- sentinel return with a result
    intro pc s hs
    rcases s with _ | ⟨a, t⟩
    · simp at hs
    · rcases t with _ | ⟨b, t'⟩
      · exact ⟨rfl, rfl⟩
      · constructor
        · simp [branchStep, invokeSentinel, List.drop_length]
        · rfl
  · -- sentinel return without a result
    intro pc s
    constructor
    · simp [branchStep, invokeSentinel, List.drop_length]
    · rfl

/-- Helper: `ignore_custom_section` is the identity on the cursor when
the byte at the head of the stream is nonzero (not a custom-section
id). -/
theorem ignore_custom_head (bytes : List Nat) (idx b : Nat)
    (hb : bytes.get? idx = some b) (h0 : b ≠ 0) :
    ignore_custom_section bytes idx = .ok idx := by
  have hlt : idx < bytes.length := by
    by_contra hK
    rw [List.get?_eq_none.mpr (Nat.le_of_not_lt hK)] at hb
    exact Option.noConfusion hb
  simp only [ignore_custom_section, ignore_custom_go]
  rw [if_neg (by simp only [iterEmpty, decide_eq_true_eq, Nat.not_le]; exact hlt)]
  rw [if_pos (by rw [hb]; simp [h0])]

/-- Helper: a standard-section read whose id does not match the
nonzero standard id (≤ 11) at the stream head consumes nothing —
state and cursor are returned unchanged. -/
theorem sectionRead_skip (bytes : List Nat) (idx id b : Nat)
    (reader : ModuleSt → Nat → Except Error (ModuleSt × Nat)) (st : ModuleSt)
    (hb : bytes.get? idx = some b) (hne : b ≠ id) (h0 : b ≠ 0) (hle : b ≤ 11) :
    sectionRead bytes id reader st idx = .ok (st, idx) := by
  have hlt : idx < bytes.length := by
    by_contra hK
    rw [List.get?_eq_none.mpr (Nat.le_of_not_lt hK)] at hb
    exact Option.noConfusion hb
  have hEmpty : iterEmpty bytes idx = false := by
    simp only [iterEmpty, decide_eq_false_iff_not, Nat.not_le]
    exact hlt
  rw [List.get?_eq_getElem?] at hb
  simp only [sectionRead]
  rw [if_neg (by simp [hEmpty, hb, hne])]
  rw [if_neg (by simp [hEmpty, hb]; omega)]
  show Except.bind (ignore_custom_section bytes idx) (fun idx2 => Except.ok (st, idx2)) =
    Except.ok (st, idx)
  rw [ignore_custom_head bytes idx b (by rw [List.get?_eq_getElem?]; exact hb) h0]
  rfl

/-- Helper: a standard-section read (id ≤ 11) that finds a byte
greater than 11 at the stream head fails with
`Malformed("invalid section id")`. -/
theorem sectionRead_invalid (bytes : List Nat) (idx id b : Nat)
    (reader : ModuleSt → Nat → Except Error (ModuleSt × Nat)) (st : ModuleSt)
    (hb : bytes.get? idx = some b) (hid : id ≤ 11) (hgt : b > 11) :
    sectionRead bytes id reader st idx = .error (.malformed INVALID_SECTION_ID) := by
  have hlt : idx < bytes.length := by
    by_contra hK
    rw [List.get?_eq_none.mpr (Nat.le_of_not_lt hK)] at hb
    exact Option.noConfusion hb
  have hEmpty : iterEmpty bytes idx = false := by
    simp only [iterEmpty, decide_eq_false_iff_not, Nat.not_le]
    exact hlt
  rw [List.get?_eq_getElem?] at hb
  simp only [sectionRead]
  rw [if_neg (by simp [hEmpty, hb]; omega)]
  rw [if_pos (by simp [hEmpty, hb]; omega)]
  rfl

/-- C4 counterexample: an input whose section stream repeats the
standard id 1 does not fail with `invalid section id` — the repeated
section is never consumed, every later standard-section read skips
it, and `Module::compile` fails at the final junk check with
`Malformed("junk after last section")`. -/
theorem c4_counterexample :
    compileModule trivialValidate c4_bytes_repeated = .error (.malformed JUNK_AFTER_LAST) ∧
    Error.malformed JUNK_AFTER_LAST ≠ Error.malformed INVALID_SECTION_ID :=
  ⟨rfl, by decide⟩

/-- C4 (amended): for every input, every standard-section read whose
id does not match the nonzero standard id (≤ 11) at the stream head
leaves state and cursor unchanged — an out-of-order or repeated
standard section id is never consumed — and every standard-section
read (id ≤ 11) that finds a byte greater than 11 at the stream head
fails with `Malformed("invalid section id")`.  Consequently, unless
an earlier error arises inside a section that is consumed, a stream
with an out-of-order or repeated standard id reaches the final junk
check and `Module::compile` fails with `Malformed("junk after last
section")`, while an id greater than 11 positioned after the
data-section read also surfaces as junk: the four concrete runs,
independent of the function-body validator because none of the
inputs contains a code section, demonstrate each outcome. -/
theorem c4_section_stream_errors (validate : ModuleSt → Nat → Except Error Unit) :
    (∀ (bytes : List Nat) (idx id b : Nat)
        (reader : ModuleSt → Nat → Except Error (ModuleSt × Nat)) (st : ModuleSt),
      bytes.get? idx = some b → b ≠ id → b ≠ 0 → b ≤ 11 →
      sectionRead bytes id reader st idx = .ok (st, idx)) ∧
    (∀ (bytes : List Nat) (idx id b : Nat)
        (reader : ModuleSt → Nat → Except Error (ModuleSt × Nat)) (st : ModuleSt),
      bytes.get? idx = some b → id ≤ 11 → b > 11 →
      sectionRead bytes id reader st idx = .error (.malformed INVALID_SECTION_ID)) ∧
    compileModule validate c4_bytes_repeated = .error (.malformed JUNK_AFTER_LAST) ∧
    compileModule validate c4_bytes_out_of_order = .error (.malformed JUNK_AFTER_LAST) ∧
    compileModule validate c4_bytes_id12 = .error (.malformed INVALID_SECTION_ID) ∧
    compileModule validate c4_bytes_late12 = .error (.malformed JUNK_AFTER_LAST) :=
  ⟨fun bytes idx id b reader st hb hne h0 hle =>
      sectionRead_skip bytes idx id b reader st hb hne h0 hle,
   fun bytes idx id b reader st hb hid hgt =>
      sectionRead_invalid bytes idx id b reader st hb hid hgt,
   rfl, rfl, rfl, rfl⟩

/-- C4 witness: the import-section read at the repeated type-section
id skips it in place, the type-section read at the id-12 input
reports `invalid section id`, and the full compile of that input
fails likewise. -/
theorem c4_witness :
    sectionRead c4_bytes_repeated 2 (parse_import_section c4_bytes_repeated)
        ModuleSt.empty 11 = .ok (ModuleSt.empty, 11) ∧
    sectionRead c4_bytes_id12 1 (parse_type_section c4_bytes_id12)
        ModuleSt.empty 8 = .error (.malformed INVALID_SECTION_ID) ∧
    compileModule trivialValidate c4_bytes_id12 = .error (.malformed INVALID_SECTION_ID) :=
  ⟨(c4_section_stream_errors trivialValidate).1 c4_bytes_repeated 11 2 1
      (parse_import_section c4_bytes_repeated) ModuleSt.empty rfl
      (by decide) (by decide) (by decide),
   (c4_section_stream_errors trivialValidate).2.1 c4_bytes_id12 8 1 12
      (parse_type_section c4_bytes_id12) ModuleSt.empty rfl
      (by decide) (by decide),
   (c4_section_stream_errors trivialValidate).2.2.2.2.1⟩

/-- C7 witness: a call at call-frame depth 1000 traps with `call
stack exhausted` without entering the callee, and frame setup at
control depth 1000 traps likewise. -/
theorem c7_witness :
    call_function_idx (fun _ s => (s, .ok ())) (.host 0 (fun _ => none)) 0
        ⟨[], [], List.replicate 1000 0, []⟩ =
      (⟨[], [], List.replicate 1000 0, []⟩, .error (.trap STACK_EXHAUSTED)) ∧
    (setup_wasm_function_call 0 7 0 [] (List.replicate 1000 ⟨0, 0, 0, false⟩) [] [] 0).2 =
      .error (.trap STACK_EXHAUSTED) := by
  have h := c7_depth_guards (fun _ s => (s, .ok ())) (.host 0 (fun _ => none)) 0
    ⟨[], [], List.replicate 1000 0, []⟩ 0 7 0 0 [] (List.replicate 1000 ⟨0, 0, 0, false⟩) [] []
    (0, 0, 0, 0, false)
  exact ⟨h.1 (by simp only [List.length_replicate, MAX_CALL_DEPTH, ge_iff_le, le_refl]),
    h.2.1 (by simp only [List.length_replicate, MAX_CONTROL_DEPTH, ge_iff_le, le_refl])⟩

/-- C8 witness: a zero-parameter owned-wasm function invoked with one
argument traps with `invalid number of arguments`, and the sentinel
return leaves exactly one value for a result-carrying signature. -/
theorem c8_witness :
    invoke (fun _ s => (s, .ok ())) (.ownedWasm 65536 5 0) [⟨3⟩] =
      .error (.trap INVALID_NUM_ARG) ∧
    (branchStep 0 [⟨7⟩] [invokeSentinel true] 0).2.1.length = 1 := by
  have h := c8_invoke_contract (fun _ s => (s, .ok ())) (.ownedWasm 65536 5 0) [⟨3⟩]
    (fun pc st => by simp) (by trivial)
  exact ⟨h.1.mpr (by decide), (h.2.2.1 0 [⟨7⟩] (by simp)).1⟩

end Wagmi
